import Mathlib

/-!
Verification of the prompt-enhancement subsystem of the marechan repository
(`src/utils/prompt_enhancer.py`), as a shallow embedding in Lean.

Python strings are modelled as `List Char`; the host OS and runtime facilities
each probe reads are modelled as fields of a `World` record, of type
`Except Err _`: an `Except.error` value models the facility raising a Python
exception at that call site.  A `try/except` block in the source is modelled by
`pyTry`, which converts an error into an absent (`none`) result.  All numeric
values that Python holds as floats are modelled as rationals.
-/

namespace Marechan

/-- Python exception values, modelled by their message. -/
abbrev Err := List Char

/-- Python strings, modelled as character lists so that every string operation
reduces in the kernel. -/
abbrev Str := List Char

/-- Equality of modelled call results is decidable, so concrete runs can be
checked by evaluation. -/
instance {ε α : Type _} [DecidableEq ε] [DecidableEq α] : DecidableEq (Except ε α) :=
  fun x y =>
  match x, y with
  | .ok a, .ok b =>
      if h : a = b then .isTrue (by rw [h]) else .isFalse (by intro hc; cases hc; exact h rfl)
  | .error a, .error b =>
      if h : a = b then .isTrue (by rw [h]) else .isFalse (by intro hc; cases hc; exact h rfl)
  | .ok _, .error _ => .isFalse (by intro hc; cases hc)
  | .error _, .ok _ => .isFalse (by intro hc; cases hc)

/-- Embed a Lean string literal as a modelled Python string. -/
def str (s : String) : Str := s.data

/-- Python `str.lower()` (the names in this program are ASCII). -/
def pyLower (s : Str) : Str := s.map Char.toLower

/-- `a` is a leading segment of `b` (used to model Python `str.startswith`). -/
def isPre : Str → Str → Bool
  | [], _ => true
  | _ :: _, [] => false
  | a :: as, b :: bs => a == b && isPre as bs

/-- `a` occurs contiguously inside `b`: Python `a in b` for strings. -/
def isSub (a : Str) : Str → Bool
  | [] => isPre a []
  | c :: rest => isPre a (c :: rest) || isSub a rest

/-- Python whitespace characters recognised by `str.split()` / `str.strip()`. -/
def isPySpace (c : Char) : Bool :=
  c == ' ' || c == '\t' || c == '\n' || c == '\r' || c == Char.ofNat 11 || c == Char.ofNat 12

/-- Python `str.strip()`. -/
def pyStrip (s : Str) : Str :=
  ((s.dropWhile isPySpace).reverse.dropWhile isPySpace).reverse

/-- Fuel-driven worker for `splitSub`; fuel is the length of the scanned string,
so the recursion is structural and kernel-reducible. -/
def splitSubAux (sep : Str) : Nat → Str → List Str
  | _, [] => [[]]
  | 0, s => [s]
  | fuel + 1, c :: rest =>
      if isPre sep (c :: rest) then
        [] :: splitSubAux sep fuel (List.drop (sep.length - 1) rest)
      else
        match splitSubAux sep fuel rest with
        | [] => [[c]]
        | h :: t => (c :: h) :: t

/-- Python `str.split(sep)` for a non-empty separator. -/
def splitSub (sep s : Str) : List Str := splitSubAux sep s.length s

/-- Python `str.split` at newline characters. -/
def pyLines (s : Str) : List Str := splitSub (str "\n") s

/-- Fuel-driven worker for `pySplitWs`. -/
def pySplitWsAux : Nat → Str → List Str
  | _, [] => []
  | 0, s => [s]
  | fuel + 1, c :: rest =>
      if isPySpace c then pySplitWsAux fuel rest
      else
        let tok := List.takeWhile (fun x => !isPySpace x) (c :: rest)
        tok :: pySplitWsAux fuel (List.drop tok.length (c :: rest))

/-- Python `str.split()` with no argument: split on whitespace runs, no empty parts. -/
def pySplitWs (s : Str) : List Str := pySplitWsAux s.length s

/-- Python sequence indexing `l[i]`, raising IndexError when out of range. -/
def pyIndex (l : List α) (i : Nat) : Except Err α :=
  match l.get? i with
  | some a => .ok a
  | none => .error (str "IndexError")

/-- Python `l[-1]` on a list known to be non-empty (`str.split` output); the
default is never reached. -/
def lastD (l : List Str) : Str := l.getLastD []

/-- Python `sep.join(parts)`. -/
def joinSep (sep : Str) : List Str → Str
  | [] => []
  | [x] => x
  | x :: y :: rest => x ++ sep ++ joinSep sep (y :: rest)

/-- Python `str(n)` for a non-negative integer. -/
def natStr (n : Nat) : Str := Nat.toDigits 10 n

/-- Python `str(i)` for an integer. -/
def intStr (i : Int) : Str :=
  if i < 0 then '-' :: natStr i.natAbs else natStr i.natAbs

/-- Hexadecimal digit, lower case. -/
def hexDigit (n : Nat) : Char :=
  if n < 10 then Char.ofNat ('0'.toNat + n) else Char.ofNat ('a'.toNat + (n - 10))

/-- Python two-digit lower-case hex formatting (format spec 02x) of a byte. -/
def hex2 (n : Nat) : Str := [hexDigit ((n / 16) % 16), hexDigit (n % 16)]

/-- Python `int(s)` restricted to the plain digit strings that occur in netstat
output; anything else raises ValueError. -/
def pyParseNat (s : Str) : Except Err Nat :=
  if s ≠ [] && s.all Char.isDigit then
    .ok (s.foldl (fun acc c => acc * 10 + (c.toNat - '0'.toNat)) 0)
  else
    .error (str "ValueError")

/-- Python `list(set(l))`: the duplicate-free list of elements.  CPython leaves
the order unspecified; the model fixes one order, and every claim about the
result only uses membership and duplicate-freeness. -/
def pySet (l : List Str) : List Str := l.dedup

/-- Stable insertion used by `sortStable`: `x`, which originates earlier in the
input, is placed before the first element that is not strictly prior to it. -/
def insertStable (le : α → α → Bool) (x : α) : List α → List α
  | [] => [x]
  | y :: ys =>
      if le y x && !le x y then y :: insertStable le x ys else x :: y :: ys

/-- Stable sort modelling Python `sorted`: equal-key elements keep their
original relative order. -/
def sortStable (le : α → α → Bool) : List α → List α
  | [] => []
  | x :: xs => insertStable le x (sortStable le xs)

/-- One `defaultdict(int)` increment, preserving first-insertion order of keys
as CPython dicts do. -/
def bump : List (Str × Nat) → Str → List (Str × Nat)
  | [], n => [(n, 1)]
  | (k, c) :: rest, n =>
      if k == n then (k, c + 1) :: rest else (k, c) :: bump rest n

/-- Floor of a rational, written out computably; equal to `⌊q⌋`
(`Rat.floor_def`). -/
def myFloor (q : ℚ) : ℤ := q.num / (q.den : ℤ)

/-- Nearest integer with ties to even: the rounding CPython `round` applies. -/
def roundHE (q : ℚ) : ℤ :=
  if q - (myFloor q : ℚ) < 1 / 2 then myFloor q
  else if 1 / 2 < q - (myFloor q : ℚ) then myFloor q + 1
  else if myFloor q % 2 = 0 then myFloor q else myFloor q + 1

/-- Python `round(x, 2)` on the exact rational value of `x`. -/
def pyRound2 (q : ℚ) : ℚ := (roundHE (q * 100) : ℚ) / 100

/-- Python `round(x, 1)` (used through the `.1f` format). -/
def roundTenths (q : ℚ) : ℤ := roundHE (q * 10)

/-- Python fixed-point formatting with one decimal digit (format spec .1f). -/
def format1f (q : ℚ) : Str :=
  let r := roundTenths q
  let body := natStr (r.natAbs / 10) ++ str "." ++ natStr (r.natAbs % 10)
  if r < 0 then '-' :: body else body

/-- Decimal rendering of a rational whose denominator divides 100; models the
CPython float repr of the two-decimal values this program produces.  Values
outside that shape (which the program never renders) fall back to a
fraction spelling. -/
def floatRepr (q : ℚ) : Str :=
  let sign : Str := if q < 0 then str "-" else []
  let n := q.num.natAbs
  if q.den = 1 then sign ++ natStr n ++ str ".0"
  else if q.den ∣ 100 then
    let c := n * (100 / q.den)
    let frac := c % 100
    let fracStr := if frac % 10 = 0 then natStr (frac / 10) else
      (if frac < 10 then str "0" else []) ++ natStr frac
    sign ++ natStr (c / 100) ++ str "." ++ fracStr
  else sign ++ natStr n ++ str "/" ++ natStr q.den

/-- Python general-format rendering with explicit sign (format spec +g) for the
two-decimal offsets produced by the timezone probe: trailing zeros stripped. -/
def formatPlusG (q : ℚ) : Str :=
  let sign : Str := if q < 0 then str "-" else str "+"
  let n := q.num.natAbs
  if q.den = 1 then sign ++ natStr n
  else if q.den ∣ 100 then
    let c := n * (100 / q.den)
    let frac := c % 100
    let fracStr := if frac % 10 = 0 then natStr (frac / 10) else
      (if frac < 10 then str "0" else []) ++ natStr frac
    sign ++ natStr (c / 100) ++ str "." ++ fracStr
  else sign ++ natStr n ++ str "/" ++ natStr q.den

/-- Python `str(b)` for a bool. -/
def pyBoolStr (b : Bool) : Str := if b then str "True" else str "False"

/-- A Python number that is either an int or a float, as far as rendering is
concerned (the load averages are floats, their `-1` fallback is an int). -/
inductive PyNum where
  | pint (i : ℤ)
  | pfloat (q : ℚ)
deriving Repr

/-- Rendering of a `PyNum` inside an f-string. -/
def PyNum.render : PyNum → Str
  | .pint i => intStr i
  | .pfloat q => floatRepr q

/-- Python `int(x)` on a float: truncation toward zero. -/
def pyIntOfRat (q : ℚ) : ℤ := q.num.tdiv (q.den : ℤ)

/-- A `try: ... except: return None` wrapper: an error inside the body becomes
an absent result, and the call itself never errors. -/
def pyTry (x : Except Err α) : Except Err (Option α) :=
  match x with
  | .ok a => .ok (some a)
  | .error _ => .ok none

/-- Result of an inner `try/except` that falls back to a default value. -/
def pyCatch (x : Except Err α) (dflt : α) : α :=
  match x with
  | .ok a => a
  | .error _ => dflt

/-- A `datetime` object, as the time probe uses it: an opaque value whose
`strftime` method is a pure formatting function. -/
structure PyDatetime where
  strftime : Str → Str

/-- One `psutil.net_io_counters()` snapshot. -/
structure NetIO where
  bytes_sent : Nat
  bytes_recv : Nat
  packets_sent : Nat
  packets_recv : Nat
deriving DecidableEq

/-- The `psutil.virtual_memory()` fields the system probe reads. -/
structure VMem where
  percent : ℚ
  total : Nat
deriving DecidableEq

/-- The `psutil.disk_usage(path)` fields this program reads. -/
structure DiskU where
  total : Nat
  used : Nat
  percent : ℚ
deriving DecidableEq

/-- One entry of `psutil.net_connections()`, restricted to the fields read. -/
structure Conn where
  status : Str
  laddr_port : Nat
  pid : Option Nat
deriving DecidableEq

/-- One `psutil.disk_partitions()` entry, restricted to the fields read. -/
structure Part where
  device : Str
  mountpoint : Str
  fstype : Str
deriving DecidableEq

/-- One `proc.info` record from `psutil.process_iter` in the process probe. -/
structure PInfo where
  name : Str
  status : Str
  cpu_percent : ℚ
  memory_percent : ℚ
deriving DecidableEq

/-- The host OS and runtime facilities the probes read, one field per call
site.  An `Except.error` value models that facility raising when called;
function-typed fields model facilities queried at a computed argument. -/
structure World where
  -- datetime / time module (time probe)
  datetime_now : Except Err PyDatetime
  datetime_utcnow : Except Err PyDatetime
  time_tzname : Except Err (List Str)
  time_time : Except Err ℚ
  -- platform module (values constant within one run)
  platform_system : Except Err Str
  platform_release : Except Err Str
  platform_machine : Except Err Str
  platform_processor : Except Err Str
  -- system probe
  psutil_cpu_percent : Except Err ℚ
  psutil_cpu_count_logical : Except Err Nat
  psutil_cpu_count_physical : Except Err Nat
  proc_cpuinfo_out : Except Err Str
  psutil_vm : Except Err VMem
  psutil_disk_root : Except Err DiskU
  psutil_boot_time : Except Err Nat
  sys_now_epoch : Except Err Nat
  -- network probe
  socket_gethostname : Except Err Str
  socket_probe_ip : Except Err Str
  uuid_getnode : Except Err Nat
  net_if_addrs : Except Err (List Str)
  requests_google : Except Err Unit
  req_t0 : Except Err ℚ
  req_t1 : Except Err ℚ
  -- locale probe
  locale_getlocale : Except Err (Option Str × Option Str)
  locale_setlocale : Except Err Unit
  locale_currency : Except Err Str
  time_strftime_X : Except Err Str
  time_strftime_x : Except Err Str
  -- timezone probe
  tz_tzname : Except Err (List Str)
  time_timezone : Except Err ℤ
  time_daylight : Except Err ℤ
  localtime_isdst : Except Err ℤ
  time_altzone : Except Err ℤ
  pytz_all_timezones : Except Err (List Str)
  -- performance probe
  os_has_getloadavg : Bool
  os_getloadavg : Except Err (ℚ × ℚ × ℚ)
  psutil_pids : Except Err (List Nat)
  perf_net_io : Except Err NetIO
  psutil_swap_percent : Except Err ℚ
  fromtimestamp_fmt : Nat → Str
  -- hardware probe
  wmi_bios_version : Except Err Str
  efi_exists : Except Err Bool
  -- users probe
  psutil_users : Except Err (List Str)
  who_out : Except Err Str
  pwd_getpwall : Except Err (List Str)
  net_user_out : Except Err Str
  -- network traffic probe
  net_io1 : Except Err NetIO
  net_io2 : Except Err NetIO
  net_io_pernic : Except Err (List (Str × NetIO))
  -- ports probe
  net_connections : Except Err (List Conn)
  proc_name_of : Nat → Except Err Str
  netstat_out : Except Err Str
  -- process probe
  process_iter : Except Err (List (Except Err PInfo))
  -- filesystem probe
  disk_partitions : Except Err (List Part)
  disk_usage_of : Str → Except Err DiskU
  disk_io_counters : Except Err (Option (Nat × Nat))
  -- services probe
  systemctl_out : Except Err Str
  service_status_out : Except Err Str
  net_start_out : Except Err Str
  svc_proc_names : Except Err (List Str)

/-- Result dict of `get_current_time_info`. -/
structure TimeInfo where
  weekday : Str
  date : Str
  time : Str
  full : Str
  utc : Str
  timestamp : ℤ

/-- `PromptEnhancer.get_current_time_info` (lines 181-205).  The source wraps
this probe in no `try/except`, so every failure of an underlying facility
propagates to the caller. -/
def get_current_time_info (w : World) : Except Err TimeInfo := do
  let now_local ← w.datetime_now
  let now_utc ← w.datetime_utcnow
  let tznames ← w.time_tzname
  let local_tz ← pyIndex tznames 0
  let weekday := now_local.strftime (str "%A")
  let date := now_local.strftime (str "%d %B %Y")
  let time_str := now_local.strftime (str "%H:%M:%S")
  let t ← w.time_time
  .ok {
    weekday := weekday
    date := date
    time := time_str
    full := weekday ++ str ", " ++ date ++ str " " ++ time_str ++ str " (" ++ local_tz ++ str ")"
    utc := now_utc.strftime (str "%Y-%m-%d %H:%M:%S UTC")
    timestamp := pyIntOfRat t }

/-- Result dict of `get_system_info`. -/
structure SystemInfo where
  os : Str
  version : Str
  cpu : ℚ
  cpu_cores : Nat
  physical_cores : Nat
  cpu_model : Str
  memory : ℚ
  memory_gb : ℚ
  disk_total : ℚ
  disk_percent : ℚ
  uptime : Str

/-- The inner `try` of `get_system_info` computing `cpu_model`: on Windows,
`platform.processor()`; otherwise the `/proc/cpuinfo` pipeline output, stripped,
split on `:`, element 1, stripped.  Any failure yields `"Unknown CPU"`. -/
def cpuModel (w : World) : Str :=
  pyCatch (do
    let ps ← w.platform_system
    if ps = str "Windows" then w.platform_processor
    else do
      let out ← w.proc_cpuinfo_out
      let piece ← pyIndex (splitSub (str ":") (pyStrip out)) 1
      .ok (pyStrip piece)) (str "Unknown CPU")

/-- The uptime f-string (days, hours, minutes) derived from
`datetime.now() - datetime.fromtimestamp(psutil.boot_time())`; timedelta
normalisation keeps `seconds` in `[0, 86400)`. -/
def uptimeStr (bootE nowE : Nat) : Str :=
  let total : ℤ := (nowE : ℤ) - (bootE : ℤ)
  let days : ℤ := total.fdiv 86400
  let secs : ℕ := (total.emod 86400).toNat
  intStr days ++ str " days, " ++ natStr (secs / 3600) ++ str " hours, "
    ++ natStr ((secs / 60) % 60) ++ str " minutes"

/-- `PromptEnhancer.get_system_info` (lines 207-265). -/
def get_system_info (w : World) : Except Err (Option SystemInfo) := pyTry do
  let os_name ← w.platform_system
  let os_version ← w.platform_release
  let cpu_usage ← w.psutil_cpu_percent
  let cpu_cores ← w.psutil_cpu_count_logical
  let cpu_physical ← w.psutil_cpu_count_physical
  let cpu_model := cpuModel w
  let memory ← w.psutil_vm
  let disk ← w.psutil_disk_root
  let boot ← w.psutil_boot_time
  let nowE ← w.sys_now_epoch
  .ok {
    os := os_name
    version := os_version
    cpu := cpu_usage
    cpu_cores := cpu_cores
    physical_cores := cpu_physical
    cpu_model := cpu_model
    memory := memory.percent
    memory_gb := pyRound2 ((memory.total : ℚ) / 1024 ^ 3)
    disk_total := pyRound2 ((disk.total : ℚ) / 1024 ^ 3)
    disk_percent := disk.percent
    uptime := uptimeStr boot nowE }

/-- Result dict of `get_network_info`. -/
structure NetworkInfo where
  hostname : Str
  local_ip : Str
  mac_address : Str
  interfaces : List Str
  internet_available : Bool
  latency : ℚ

/-- The MAC string from `uuid.getnode()`: six bytes, least significant first,
formatted `02x`, reversed, joined with `:`. -/
def macOfNode (node : Nat) : Str :=
  joinSep (str ":")
    (((List.range 6).map (fun i => hex2 ((node / 256 ^ i) % 256))).reverse)

/-- `PromptEnhancer.get_network_info` (lines 267-318). -/
def get_network_info (w : World) : Except Err (Option NetworkInfo) := pyTry do
  let hostname ← w.socket_gethostname
  let local_ip := pyCatch w.socket_probe_ip (str "127.0.0.1")
  let node ← w.uuid_getnode
  let interfaces ← w.net_if_addrs
  let (internet_available, latency) := pyCatch (do
      let t0 ← w.req_t0
      let _ ← w.requests_google
      let t1 ← w.req_t1
      .ok (true, pyRound2 ((t1 - t0) * 1000))) (false, -1)
  .ok {
    hostname := hostname
    local_ip := local_ip
    mac_address := macOfNode node
    interfaces := interfaces
    internet_available := internet_available
    latency := latency }

/-- Result dict of `get_locale_info`. -/
structure LocaleInfo where
  language : Str
  encoding : Str
  currency : Str
  time_format : Str
  date_format : Str

/-- `PromptEnhancer.get_locale_info` (lines 320-350). -/
def get_locale_info (w : World) : Except Err (Option LocaleInfo) := pyTry do
  let current_locale ← w.locale_getlocale
  let (currency_symbol, time_format, date_format) := pyCatch (do
      let _ ← w.locale_setlocale
      let c ← w.locale_currency
      let tf ← w.time_strftime_X
      let df ← w.time_strftime_x
      .ok (c, tf, df)) (str "Unknown", str "Unknown", str "Unknown")
  let language := match current_locale.1 with
    | some s => if s ≠ [] then s else str "Unknown"
    | none => str "Unknown"
  let encoding := match current_locale.2 with
    | some s => if s ≠ [] then s else str "Unknown"
    | none => str "Unknown"
  .ok {
    language := language
    encoding := encoding
    currency := currency_symbol
    time_format := time_format
    date_format := date_format }

/-- Result dict of `get_timezone_info`. -/
structure TimezoneInfo where
  current : Str
  utc_offset : Str
  dst_active : Bool
  examples : List Str

/-- `PromptEnhancer.get_timezone_info` (lines 352-382). -/
def get_timezone_info (w : World) : Except Err (Option TimezoneInfo) := pyTry do
  let tznames ← w.tz_tzname
  let local_zone ← pyIndex tznames 0
  let tz ← w.time_timezone
  let daylight ← w.time_daylight
  let isdst ← w.localtime_isdst
  let utc_offset ←
    if daylight ≠ 0 ∧ 0 < isdst then do
      let alt ← w.time_altzone
      .ok (pyRound2 ((alt : ℚ) / (-3600)))
    else
      .ok (pyRound2 ((tz : ℚ) / (-3600)))
  let is_dst := isdst ≠ 0
  let tzs ← w.pytz_all_timezones
  .ok {
    current := local_zone
    utc_offset := formatPlusG utc_offset ++ str " hours"
    dst_active := is_dst
    examples := tzs.take 5 }

/-- Result dict of `get_performance_metrics`. -/
structure PerfInfo where
  load_1 : PyNum
  load_5 : PyNum
  load_15 : PyNum
  process_count : Nat
  network_sent : ℚ
  network_recv : ℚ
  swap_percent : ℚ
  boot_time : Str

/-- The load-average expression of `get_performance_metrics` (line 393):
`os.getloadavg()` when the os module has that attribute, the int triple
`(-1, -1, -1)` otherwise. -/
def perfLoads (w : World) : Except Err (PyNum × PyNum × PyNum) :=
  if w.os_has_getloadavg then do
    let lds ← w.os_getloadavg
    .ok (PyNum.pfloat lds.1, PyNum.pfloat lds.2.1, PyNum.pfloat lds.2.2)
  else
    .ok (PyNum.pint (-1), PyNum.pint (-1), PyNum.pint (-1))

/-- `PromptEnhancer.get_performance_metrics` (lines 384-422). -/
def get_performance_metrics (w : World) : Except Err (Option PerfInfo) := pyTry do
  let lds ← perfLoads w
  let (l1, l5, l15) := lds
  let pids ← w.psutil_pids
  let net_io ← w.perf_net_io
  let swap ← w.psutil_swap_percent
  let boot ← w.psutil_boot_time
  .ok {
    load_1 := l1
    load_5 := l5
    load_15 := l15
    process_count := pids.length
    network_sent := pyRound2 ((net_io.bytes_sent : ℚ) / 1024 ^ 2)
    network_recv := pyRound2 ((net_io.bytes_recv : ℚ) / 1024 ^ 2)
    swap_percent := swap
    boot_time := w.fromtimestamp_fmt boot }

/-- Result dict of `get_hardware_info`. -/
structure HardwareInfo where
  machine_type : Str
  processor : Str
  bios_version : Str
  boot_mode : Str

/-- `PromptEnhancer.get_hardware_info` (lines 424-463). -/
def get_hardware_info (w : World) : Except Err (Option HardwareInfo) := pyTry do
  let machine_type ← w.platform_machine
  let processor ← w.platform_processor
  let ps ← w.platform_system
  let bios_version :=
    if ps = str "Windows" then pyCatch w.wmi_bios_version (str "Unknown")
    else str "Unknown"
  let boot_mode :=
    if ps = str "Linux" then
      pyCatch (w.efi_exists.map
        (fun b => if b then str "UEFI" else str "Legacy BIOS")) (str "Unknown")
    else str "Unknown"
  .ok {
    machine_type := machine_type
    processor := processor
    bios_version := bios_version
    boot_mode := boot_mode }

/-- Result dict of `get_users_info`. -/
structure UsersInfo where
  logged_users : List Str
  logged_users_count : Nat
  system_users : List Str
  system_users_count : Nat
  sessions_count : Nat

/-- Worker for `whoScan`, carrying the users collected so far so that the
`if username not in logged_users` test of the source checks earlier lines. -/
def whoScanAux : List Str → List Str → Nat → List Str × Nat
  | [], acc, n => (acc, n)
  | line :: rest, acc, n =>
      if pyStrip line ≠ [] then
        let username := (pySplitWs line).headD []
        whoScanAux rest (if username ∈ acc then acc else acc ++ [username]) (n + 1)
      else whoScanAux rest acc n

/-- The `who` fallback of `get_users_info`: each non-blank line contributes its
first whitespace token (appended only if new) and one session. -/
def whoScan (lines : List Str) : List Str × Nat := whoScanAux lines [] 0

/-- The Windows `net user` parse of `get_users_info`. -/
def netUserScan (lines : List Str) : List Str :=
  (lines.map pyStrip).foldr
    (fun line acc =>
      if line ≠ [] ∧ ¬ isPre (str "-") line ∧ ¬ isPre (str "User accounts") line
          ∧ ¬ isPre (str "The command") line then
        pySplitWs line ++ acc
      else acc) []

/-- `PromptEnhancer.get_users_info` (lines 465-520). -/
def get_users_info (w : World) : Except Err (Option UsersInfo) := pyTry do
  let (logged_users, sessions_count) :=
    match w.psutil_users with
    | .ok names => (names, names.length)
    | .error _ => pyCatch (w.who_out.map (fun out => whoScan (pyLines out))) ([], 0)
  let system_users := pyCatch (do
      let ps ← w.platform_system
      if ps ≠ str "Windows" then w.pwd_getpwall
      else w.net_user_out.map (fun out => netUserScan (pyLines out))) []
  .ok {
    logged_users := logged_users
    logged_users_count := logged_users.length
    system_users := system_users
    system_users_count := system_users.length
    sessions_count := sessions_count }

/-- Per-interface statistics entry of `get_network_traffic`. -/
structure IfStats where
  sent_mb : ℚ
  received_mb : ℚ
  packets_sent : Nat
  packets_recv : Nat

/-- Result dict of `get_network_traffic`. -/
structure TrafficInfo where
  download_speed : ℚ
  upload_speed : ℚ
  total_sent : ℚ
  total_received : ℚ
  packets_sent : Nat
  packets_recv : Nat
  interfaces : List (Str × IfStats)

/-- `PromptEnhancer.get_network_traffic` (lines 522-577).  The two snapshots
are separated by `time.sleep(1)` in the source; the model keeps both counter
readings as distinct world fields. -/
def get_network_traffic (w : World) : Except Err (Option TrafficInfo) := pyTry do
  let io1 ← w.net_io1
  let io2 ← w.net_io2
  let interfaces := pyCatch (w.net_io_pernic.map (fun l =>
      l.map (fun (iface, stats) =>
        (iface, { sent_mb := pyRound2 ((stats.bytes_sent : ℚ) / (1024 * 1024))
                  received_mb := pyRound2 ((stats.bytes_recv : ℚ) / (1024 * 1024))
                  packets_sent := stats.packets_sent
                  packets_recv := stats.packets_recv : IfStats })))) []
  .ok {
    download_speed := pyRound2 (((io2.bytes_recv : ℚ) - (io1.bytes_recv : ℚ)) / 1024)
    upload_speed := pyRound2 (((io2.bytes_sent : ℚ) - (io1.bytes_sent : ℚ)) / 1024)
    total_sent := pyRound2 ((io2.bytes_sent : ℚ) / (1024 * 1024))
    total_received := pyRound2 ((io2.bytes_recv : ℚ) / (1024 * 1024))
    packets_sent := io2.packets_sent
    packets_recv := io2.packets_recv
    interfaces := interfaces }

/-- Result dict of `get_open_ports`. -/
structure PortsInfo where
  listening_ports : List Nat
  total_connections : Nat
  established : Nat
  top_processes : List Str
deriving DecidableEq

/-- One iteration of the connection loop in `get_open_ports`: collect a new
listening port, count an established connection, and (when the connection has a
truthy pid whose process name resolves) bump that name in the per-process
`defaultdict`. -/
def portsStep (w : World) (st : List Nat × Nat × List (Str × Nat)) (conn : Conn) :
    List Nat × Nat × List (Str × Nat) :=
  let (lp, est, pc) := st
  let lp := if conn.status = str "LISTEN" ∧ conn.laddr_port ∉ lp
    then lp ++ [conn.laddr_port] else lp
  let est := if conn.status = str "ESTABLISHED" then est + 1 else est
  let pc := match conn.pid with
    | some p =>
        if p ≠ 0 then
          match w.proc_name_of p with
          | .ok n => bump pc n
          | .error _ => pc
        else pc
    | none => pc
  (lp, est, pc)

/-- The single pass of `get_open_ports` over `psutil.net_connections()`. -/
def portsScan (w : World) (conns : List Conn) : List Nat × Nat × List (Str × Nat) :=
  conns.foldl (portsStep w) ([], 0, [])

/-- The netstat text fallback of `get_open_ports`: every line containing
`LISTEN` with at least four whitespace fields contributes the integer after the
last `:` of field 3, if it parses and is new. -/
def netstatScan : List Str → List Nat → List Nat
  | [], acc => acc
  | line :: rest, acc =>
      let acc :=
        if isSub (str "LISTEN") line then
          let parts := pySplitWs line
          if 4 ≤ parts.length then
            let addr := parts.getD 3 []
            match pyParseNat (lastD (splitSub (str ":") addr)) with
            | .ok p => if p ∉ acc then acc ++ [p] else acc
            | .error _ => acc
          else acc
        else acc
      netstatScan rest acc

/-- `PromptEnhancer.get_open_ports` (lines 579-643).  Note the `[:5]`
truncation of `top_processes` happens here, inside the probe, and the
per-process connection counts are not part of the returned dict. -/
def get_open_ports (w : World) : Except Err (Option PortsInfo) := pyTry do
  let connections ← w.net_connections
  let (listening0, established, process_connections) := portsScan w connections
  let top_processes :=
    ((sortStable (fun a b => Nat.ble b.2 a.2) process_connections).take 5).map
      (fun pc => pc.1 ++ str " (" ++ natStr pc.2 ++ str ")")
  let listening1 ←
    if listening0 = [] then do
      let ps ← w.platform_system
      if ps = str "Linux" then
        .ok (pyCatch (w.netstat_out.map
          (fun out => netstatScan (pyLines out) listening0)) listening0)
      else .ok listening0
    else .ok listening0
  .ok {
    listening_ports := sortStable (fun a b => Nat.ble a b) listening1
    total_connections := connections.length
    established := established
    top_processes := top_processes }

/-- Result dict of `get_process_info`. -/
structure ProcessInfo where
  total : Nat
  running : Nat
  top_cpu : List Str
  top_memory : List Str

/-- `PromptEnhancer.get_process_info` (lines 645-685). -/
def get_process_info (w : World) : Except Err (Option ProcessInfo) := pyTry do
  let iter ← w.process_iter
  let (procs, running_count) := iter.foldl
    (fun st x =>
      match x with
      | .ok p => (st.1 ++ [p], if p.status = str "running" then st.2 + 1 else st.2)
      | .error _ => st) (([] : List PInfo), 0)
  let top_cpu :=
    (((sortStable (fun a b => decide (b.cpu_percent ≤ a.cpu_percent)) procs).take 5).filter
      (fun p => decide (0 < p.cpu_percent))).map
      (fun p => p.name ++ str " (" ++ format1f p.cpu_percent ++ str "%)")
  let top_memory :=
    (((sortStable (fun a b => decide (b.memory_percent ≤ a.memory_percent)) procs).take 5).filter
      (fun p => decide (0 < p.memory_percent))).map
      (fun p => p.name ++ str " (" ++ format1f p.memory_percent ++ str "%)")
  .ok {
    total := procs.length
    running := running_count
    top_cpu := top_cpu
    top_memory := top_memory }

/-- One rendered disk of `get_filesystem_info`. -/
structure DiskEntry where
  device : Str
  mountpoint : Str
  fstype : Str
  total_gb : ℚ
  used_gb : ℚ
  percent : ℚ

/-- Result dict of `get_filesystem_info`. -/
structure FilesystemInfo where
  disks : List DiskEntry
  io_read : Nat
  io_write : Nat

/-- `PromptEnhancer.get_filesystem_info` (lines 687-723); a partition whose
`disk_usage` call raises is skipped. -/
def get_filesystem_info (w : World) : Except Err (Option FilesystemInfo) := pyTry do
  let partitions ← w.disk_partitions
  let disks := partitions.foldr
    (fun part acc =>
      match w.disk_usage_of part.mountpoint with
      | .ok usage =>
          { device := part.device
            mountpoint := part.mountpoint
            fstype := part.fstype
            total_gb := pyRound2 ((usage.total : ℚ) / 1024 ^ 3)
            used_gb := pyRound2 ((usage.used : ℚ) / 1024 ^ 3)
            percent := usage.percent : DiskEntry } :: acc
      | .error _ => acc) []
  let io ← w.disk_io_counters
  let (io_read, io_write) := match io with
    | some rw => rw
    | none => (0, 0)
  .ok { disks := disks, io_read := io_read, io_write := io_write }

/-- Result dict of `get_services_info`. -/
structure ServicesInfo where
  running_count : Nat
  services : List Str
  critical : List Str
deriving DecidableEq

/-- The 18 critical-service substrings of `get_services_info` (lines 737-741). -/
def critical_service_names : List Str :=
  [str "sshd", str "httpd", str "apache2", str "nginx", str "mysql", str "mariadb",
   str "postgresql", str "mongodb", str "redis", str "memcached", str "docker",
   str "containerd", str "firewalld", str "ufw", str "ntpd", str "systemd",
   str "networkmanager", str "cron"]

/-- A name matches the critical list when some critical substring occurs in its
lower-cased form (the `for critical in ...: if critical in name.lower()` loop). -/
def isCriticalName (name : Str) : Bool :=
  critical_service_names.any (fun c => isSub c (pyLower name))

/-- The Windows critical-service names (lines 789-791). -/
def windows_critical : List Str :=
  [str "Windows Firewall", str "Windows Defender", str "Windows Update",
   str "SQL Server", str "IIS", str "DHCP", str "DNS", str "Print Spooler",
   str "Remote Desktop", str "Windows Time"]

/-- The Windows critical check: `critical.lower() in line.lower()`. -/
def isWinCritical (line : Str) : Bool :=
  windows_critical.any (fun c => isSub (pyLower c) (pyLower line))

/-- The systemd branch of `get_services_info`: every line containing both
`.service` and `running` contributes the stripped text before the first
`.service` to `services`, and also to `critical_services` when it matches the
critical list.  Returns `(services, critical_services)` in line order. -/
def systemdScan : List Str → List Str × List Str
  | [] => ([], [])
  | line :: rest =>
      let sc := systemdScan rest
      if isSub (str ".service") line ∧ isSub (str "running") line then
        let service_name := pyStrip ((splitSub (str ".service") line).headD [])
        (service_name :: sc.1,
         if isCriticalName service_name then service_name :: sc.2 else sc.2)
      else sc

/-- The `service --status-all` branch of `get_services_info`.  It only runs
after the `systemctl` call raised, which happened before `service_count = 0`
executed; its own `service_count += 1` on the first `[ + ]` line therefore
raises UnboundLocalError, swallowed by the inner handler, and a run with no
`[ + ]` line appends nothing either.  In every case this branch contributes no
service and no critical entry. -/
def serviceStatusAlt (_out : Except Err Str) : List Str × List Str := ([], [])

/-- The Windows branch of `get_services_info`: every stripped non-blank line
not starting with `The following` or `The command` is a service, and a
critical entry when it matches `windows_critical`. -/
def windowsScan : List Str → List Str × List Str
  | [] => ([], [])
  | line0 :: rest =>
      let line := pyStrip line0
      let sc := windowsScan rest
      if line ≠ [] ∧ ¬ isPre (str "The following") line ∧ ¬ isPre (str "The command") line then
        (line :: sc.1, if isWinCritical line then line :: sc.2 else sc.2)
      else sc

/-- The platform dispatch of `get_services_info` (lines 743-797), producing
the `(services, critical_services)` pair the OS command branches build. -/
def servicesScan (w : World) (ps : Str) : List Str × List Str :=
  if ps = str "Linux" then
    match w.systemctl_out with
    | .ok out => systemdScan (pyLines out)
    | .error _ => serviceStatusAlt w.service_status_out
  else if ps = str "Windows" then
    pyCatch (w.net_start_out.map (fun out => windowsScan (pyLines out))) ([], [])
  else ([], [])

/-- `PromptEnhancer.get_services_info` (lines 725-814).  When the OS command
branches discovered no services, the psutil fallback appends matching process
names to the critical list only; `services` (hence `running_count`) is left
empty. -/
def get_services_info (w : World) : Except Err (Option ServicesInfo) := pyTry do
  let ps ← w.platform_system
  let sc := servicesScan w ps
  let critical_services ←
    if sc.1 = [] then do
      let procs ← w.svc_proc_names
      .ok (sc.2 ++ procs.filter isCriticalName)
    else .ok sc.2
  .ok { running_count := sc.1.length, services := sc.1, critical := pySet critical_services }

/-- Lines appended for the `time` enhancement (lines 53-57). -/
def renderTime (ti : TimeInfo) : List Str :=
  [str "Current time: " ++ ti.full,
   str "UTC time: " ++ ti.utc]

/-- Lines appended for the `system` enhancement (lines 59-66). -/
def renderSystem (si : SystemInfo) : List Str :=
  [str "System: " ++ si.os ++ str " " ++ si.version,
   str "CPU: " ++ si.cpu_model ++ str " (" ++ natStr si.cpu_cores ++ str " cores, "
     ++ floatRepr si.cpu ++ str "% usage)",
   str "RAM: " ++ floatRepr si.memory_gb ++ str "GB total, " ++ floatRepr si.memory
     ++ str "% used",
   str "Disk: " ++ floatRepr si.disk_total ++ str "GB total, " ++ floatRepr si.disk_percent
     ++ str "% used",
   str "System uptime: " ++ si.uptime]

/-- Lines appended for the `network` enhancement (lines 68-76). -/
def renderNetwork (ni : NetworkInfo) : List Str :=
  [str "Network: IP " ++ ni.local_ip ++ str ", hostname " ++ ni.hostname,
   str "Network interfaces: " ++ joinSep (str ", ") ni.interfaces]
  ++ (if ni.internet_available then
        [str "Internet connection: Available (latency: " ++ floatRepr ni.latency ++ str "ms)"]
      else
        [str "Internet connection: Unavailable"])

/-- Lines appended for the `locale` enhancement (lines 78-84). -/
def renderLocale (li : LocaleInfo) : List Str :=
  [str "System locale: " ++ li.language ++ str ", " ++ li.encoding,
   str "Currency: " ++ li.currency,
   str "Time format: " ++ li.time_format,
   str "Date format: " ++ li.date_format]

/-- Lines appended for the `timezone` enhancement (lines 86-92). -/
def renderTimezone (tz : TimezoneInfo) : List Str :=
  [str "Timezone information:",
   str "  Current timezone: " ++ tz.current,
   str "  UTC offset: " ++ tz.utc_offset,
   str "  DST active: " ++ pyBoolStr tz.dst_active]

/-- Lines appended for the `performance` enhancement (lines 94-101). -/
def renderPerformance (pi : PerfInfo) : List Str :=
  [str "System performance:",
   str "  CPU load: 1min: " ++ pi.load_1.render ++ str ", 5min: " ++ pi.load_5.render
     ++ str ", 15min: " ++ pi.load_15.render,
   str "  Process count: " ++ natStr pi.process_count,
   str "  Network usage: " ++ floatRepr pi.network_sent ++ str "MB sent, "
     ++ floatRepr pi.network_recv ++ str "MB received",
   str "  Swap usage: " ++ floatRepr pi.swap_percent ++ str "%"]

/-- Lines appended for the `hardware` enhancement (lines 103-110). -/
def renderHardware (hw : HardwareInfo) : List Str :=
  [str "Hardware information:",
   str "  Machine type: " ++ hw.machine_type,
   str "  Processor: " ++ hw.processor,
   str "  BIOS version: " ++ hw.bios_version,
   str "  Boot mode: " ++ hw.boot_mode]

/-- Lines appended for the `users` enhancement (lines 112-122). -/
def renderUsers (ui : UsersInfo) : List Str :=
  [str "Users information:",
   str "  Logged in users: " ++ natStr ui.logged_users_count,
   str "  Current users: " ++ joinSep (str ", ") (ui.logged_users.take 5)
     ++ (if 5 < ui.logged_users.length then
           str " and " ++ natStr (ui.logged_users.length - 5) ++ str " more"
         else []),
   str "  System users: " ++ natStr ui.system_users_count,
   str "  User sessions: " ++ natStr ui.sessions_count]

/-- Lines appended for the `network_traffic` enhancement (lines 124-133). -/
def renderTraffic (ti : TrafficInfo) : List Str :=
  [str "Network traffic:",
   str "  Current download speed: " ++ floatRepr ti.download_speed ++ str " KB/s",
   str "  Current upload speed: " ++ floatRepr ti.upload_speed ++ str " KB/s",
   str "  Total downloaded: " ++ floatRepr ti.total_received ++ str " MB",
   str "  Total uploaded: " ++ floatRepr ti.total_sent ++ str " MB",
   str "  Packets received: " ++ natStr ti.packets_recv,
   str "  Packets sent: " ++ natStr ti.packets_sent]

/-- Lines appended for the `ports` enhancement (lines 135-144): the rendered
list shows the first 10 listening ports, then an `and K more...` line exactly
when more than 10 are stored in the probe result. -/
def renderPorts (pi : PortsInfo) : List Str :=
  [str "Open ports and connections:",
   str "  Total connections: " ++ natStr pi.total_connections,
   str "  Listening ports: " ++ joinSep (str ", ") ((pi.listening_ports.take 10).map natStr)]
  ++ (if 10 < pi.listening_ports.length then
        [str "    and " ++ natStr (pi.listening_ports.length - 10) ++ str " more..."]
      else [])
  ++ [str "  Established connections: " ++ natStr pi.established,
      str "  Top processes using network: " ++ joinSep (str ", ") pi.top_processes]

/-- Lines appended for the `processes` enhancement (lines 146-153). -/
def renderProcesses (pi : ProcessInfo) : List Str :=
  [str "Process information:",
   str "  Total processes: " ++ natStr pi.total,
   str "  Running processes: " ++ natStr pi.running,
   str "  Top CPU processes: " ++ joinSep (str ", ") pi.top_cpu,
   str "  Top memory processes: " ++ joinSep (str ", ") pi.top_memory]

/-- Lines appended for the `filesystem` enhancement (lines 155-163). -/
def renderFilesystem (fs : FilesystemInfo) : List Str :=
  [str "Filesystem information:"]
  ++ (fs.disks.take 3).map (fun d =>
        str "  " ++ d.device ++ str ": " ++ d.mountpoint ++ str ", " ++ d.fstype ++ str ", "
          ++ floatRepr d.total_gb ++ str "GB total, " ++ floatRepr d.percent ++ str "% used")
  ++ (if 3 < fs.disks.length then
        [str "  ... and " ++ natStr (fs.disks.length - 3) ++ str " more filesystems"]
      else [])
  ++ [str "  Total file operations: " ++ natStr fs.io_read ++ str " reads, "
        ++ natStr fs.io_write ++ str " writes"]

/-- Lines appended for the `services` enhancement (lines 165-172). -/
def renderServices (si : ServicesInfo) : List Str :=
  [str "System services:",
   str "  Running services: " ++ natStr si.running_count,
   str "  Critical services: " ++ joinSep (str ", ") (si.critical.take 5)]
  ++ (if 5 < si.critical.length then
        [str "    ... and " ++ natStr (si.critical.length - 5) ++ str " more"]
      else [])

/-- A probe wrapped in `if result:`: an absent result renders no line. -/
def optSections (x : Except Err (Option α)) (render : α → List Str) :
    Except Err (List Str) :=
  x.map (fun o => match o with
    | some a => render a
    | none => [])

/-- The sections one token of the enhancement loop appends (the
`if enhancement == ... elif ...` chain of lines 52-172); a token matching no
branch appends nothing. -/
def kindSections (w : World) (k : Str) : Except Err (List Str) :=
  if k = str "time" then (get_current_time_info w).map renderTime
  else if k = str "system" then optSections (get_system_info w) renderSystem
  else if k = str "network" then optSections (get_network_info w) renderNetwork
  else if k = str "locale" then optSections (get_locale_info w) renderLocale
  else if k = str "timezone" then optSections (get_timezone_info w) renderTimezone
  else if k = str "performance" then optSections (get_performance_metrics w) renderPerformance
  else if k = str "hardware" then optSections (get_hardware_info w) renderHardware
  else if k = str "users" then optSections (get_users_info w) renderUsers
  else if k = str "network_traffic" then optSections (get_network_traffic w) renderTraffic
  else if k = str "ports" then optSections (get_open_ports w) renderPorts
  else if k = str "processes" then optSections (get_process_info w) renderProcesses
  else if k = str "filesystem" then optSections (get_filesystem_info w) renderFilesystem
  else if k = str "services" then optSections (get_services_info w) renderServices
  else .ok []

/-- The `info_sections` accumulator of `enhance_prompt`: the loop over the
applied enhancement tokens, in order. -/
def info_sections (w : World) : List Str → Except Err (List Str)
  | [] => .ok []
  | k :: rest => do
      let s ← kindSections w k
      let r ← info_sections w rest
      .ok (s ++ r)

/-- The full catalog, in the order declared at lines 41-45. -/
def all_enhancements : List Str :=
  [str "time", str "system", str "network", str "locale", str "timezone",
   str "performance", str "hardware", str "users", str "network_traffic",
   str "ports", str "processes", str "filesystem", str "services"]

/-- The `enhancements` argument is a Python value that is either a string or a
list of strings. -/
def Enh := Sum Str (List Str)

/-- The test `enhancements == "all" or "all" in enhancements` (line 47): for a
string argument, `in` is substring containment; for a list, membership. -/
def applyAll : Enh → Bool
  | .inl s => s == str "all" || isSub (str "all") s
  | .inr l => l.contains (str "all")

/-- `enhancements_to_apply` (lines 47-50): the sequence the loop iterates.
Iterating a Python string yields its one-character substrings. -/
def enhancements_to_apply (e : Enh) : List Str :=
  if applyAll e then all_enhancements
  else match e with
    | .inl s => s.map (fun c => [c])
    | .inr l => l

/-- The fixed header line of the enriched prompt (line 176). -/
def fixed_header : Str := str "Here is real-time information you can use if relevant:"

/-- The fixed trailer of the enriched prompt (line 176). -/
def fixed_trailer : Str := str "The email is:"

/-- `PromptEnhancer.enhance_prompt` (lines 28-179). -/
def enhance_prompt (w : World) (base_prompt : Str) (enhancements : Enh) :
    Except Err Str := do
  let secs ← info_sections w (enhancements_to_apply enhancements)
  if secs ≠ [] then
    .ok (base_prompt ++ str "\n\n" ++ fixed_header ++ str "\n"
      ++ joinSep (str "\n") secs ++ str "\n\n" ++ fixed_trailer)
  else
    .ok base_prompt

/-- A benign host: every facility answers, the shell fallbacks are absent, and
the machine is an idle Linux box. -/
def wDefault : World where
  datetime_now := .ok ⟨fun _ => str "NOW"⟩
  datetime_utcnow := .ok ⟨fun _ => str "UTCNOW"⟩
  time_tzname := .ok [str "UTC", str "UTC"]
  time_time := .ok 1700000000
  platform_system := .ok (str "Linux")
  platform_release := .ok (str "6.1.0")
  platform_machine := .ok (str "x86_64")
  platform_processor := .ok (str "x86_64")
  psutil_cpu_percent := .ok 12
  psutil_cpu_count_logical := .ok 8
  psutil_cpu_count_physical := .ok 4
  proc_cpuinfo_out := .ok (str "model name: TestCPU")
  psutil_vm := .ok { percent := 50, total := 2147483648 }
  psutil_disk_root := .ok { total := 1073741824, used := 536870912, percent := 50 }
  psutil_boot_time := .ok 1000
  sys_now_epoch := .ok 90000
  socket_gethostname := .ok (str "host")
  socket_probe_ip := .ok (str "192.168.1.2")
  uuid_getnode := .ok 0
  net_if_addrs := .ok [str "lo"]
  requests_google := .error (str "offline")
  req_t0 := .ok 0
  req_t1 := .ok 1
  locale_getlocale := .ok (some (str "en_US"), some (str "UTF-8"))
  locale_setlocale := .ok ()
  locale_currency := .ok (str "$")
  time_strftime_X := .ok (str "12:00:00")
  time_strftime_x := .ok (str "01/01/25")
  tz_tzname := .ok [str "UTC", str "UTC"]
  time_timezone := .ok 0
  time_daylight := .ok 0
  localtime_isdst := .ok 0
  time_altzone := .ok 0
  pytz_all_timezones := .ok []
  os_has_getloadavg := false
  os_getloadavg := .error (str "no getloadavg")
  psutil_pids := .ok [1, 2]
  perf_net_io := .ok { bytes_sent := 0, bytes_recv := 0, packets_sent := 0, packets_recv := 0 }
  psutil_swap_percent := .ok 0
  fromtimestamp_fmt := fun _ => str "1970-01-01 00:16:40"
  wmi_bios_version := .error (str "no wmi")
  efi_exists := .ok true
  psutil_users := .ok [str "root"]
  who_out := .error (str "no who")
  pwd_getpwall := .ok [str "root"]
  net_user_out := .error (str "windows only")
  net_io1 := .ok { bytes_sent := 0, bytes_recv := 0, packets_sent := 0, packets_recv := 0 }
  net_io2 := .ok { bytes_sent := 0, bytes_recv := 0, packets_sent := 0, packets_recv := 0 }
  net_io_pernic := .ok []
  net_connections := .ok []
  proc_name_of := fun _ => .error (str "NoSuchProcess")
  netstat_out := .error (str "no netstat")
  process_iter := .ok []
  disk_partitions := .ok []
  disk_usage_of := fun _ => .error (str "PermissionError")
  disk_io_counters := .ok none
  systemctl_out := .error (str "no systemd")
  service_status_out := .error (str "no service utility")
  net_start_out := .error (str "windows only")
  svc_proc_names := .ok []

/-- The benign host with the `datetime.now()` facility mocked to raise. -/
def wTimeErr : World := { wDefault with datetime_now := .error (str "mocked clock failure") }

/-- The benign host observed with the two network-counter snapshots of the
specification example: sent 1,000,000 and recv 2,000,000 bytes at the first
reading, sent 1,512,000 and recv 3,048,000 at the second. -/
def wTraffic : World :=
  { wDefault with
    net_io1 := .ok { bytes_sent := 1000000, bytes_recv := 2000000,
                     packets_sent := 100, packets_recv := 200 }
    net_io2 := .ok { bytes_sent := 1512000, bytes_recv := 3048000,
                     packets_sent := 150, packets_recv := 250 } }

/-- Twelve distinct listening ports (listed out of order) and six established
connections owned by six distinct processes `p1` … `p6`. -/
def wPorts : World :=
  { wDefault with
    net_connections := .ok
      (([9012, 9001, 9002, 9003, 9004, 9005, 9006, 9007, 9008, 9009, 9010, 9011].map
          (fun p => { status := str "LISTEN", laddr_port := p, pid := none : Conn }))
        ++ ((List.range 6).map
          (fun i => { status := str "ESTABLISHED", laddr_port := 0, pid := some (i + 1) : Conn })))
    proc_name_of := fun p => .ok (str "p" ++ natStr p) }

/-- A Linux host without a service manager on which the only discovered
process is one nginx worker. -/
def wSvcFallback : World :=
  { wDefault with svc_proc_names := .ok [str "nginx-worker"] }

/-- A Linux host without a service manager whose process list holds two
distinct nginx processes, one of them twice. -/
def wSvcDup : World :=
  { wDefault with
    svc_proc_names := .ok [str "nginx-worker", str "nginx-main", str "nginx-worker"] }

/-- The ports probe result on `wPorts`. -/
def rPorts : PortsInfo :=
  { listening_ports := [9001, 9002, 9003, 9004, 9005, 9006, 9007, 9008, 9009, 9010, 9011, 9012],
    total_connections := 18, established := 6,
    top_processes := [str "p1 (1)", str "p2 (1)", str "p3 (1)", str "p4 (1)", str "p5 (1)"] }

/-! ### Lemmas about the rounding model -/

theorem myFloor_eq (q : ℚ) : myFloor q = ⌊q⌋ := by
  unfold myFloor
  exact Rat.floor_def.symm

theorem myFloor_le (q : ℚ) : (myFloor q : ℚ) ≤ q := by
  rw [myFloor_eq]
  exact Int.floor_le q

theorem lt_myFloor_add_one (q : ℚ) : q < (myFloor q : ℚ) + 1 := by
  rw [myFloor_eq]
  exact_mod_cast Int.lt_floor_add_one q

/-- Half-even rounding lands within half a unit of its argument. -/
theorem roundHE_near (q : ℚ) : |(roundHE q : ℚ) - q| ≤ 1 / 2 := by
  have h1 := myFloor_le q
  have h2 := lt_myFloor_add_one q
  unfold roundHE
  split_ifs with ha hb hc <;> rw [abs_le] <;> constructor <;> push_cast <;> linarith

/-- Half-even rounding is the nearest integer away from a tie. -/
theorem roundHE_eq_of (q : ℚ) (n : ℤ) (h1 : (n : ℚ) - 1 / 2 < q)
    (h2 : q < (n : ℚ) + 1 / 2) : roundHE q = n := by
  have hf1 := myFloor_le q
  have hf2 := lt_myFloor_add_one q
  unfold roundHE
  split_ifs with ha hb hc
  · have hn1 : (n : ℚ) < (myFloor q : ℚ) + 1 := by linarith
    have hn2 : (myFloor q : ℚ) < (n : ℚ) + 1 := by linarith
    have hn1' : n < myFloor q + 1 := by exact_mod_cast hn1
    have hn2' : myFloor q < n + 1 := by exact_mod_cast hn2
    omega
  · have hn1 : (n : ℚ) < (myFloor q : ℚ) + 2 := by linarith
    have hn2 : (myFloor q : ℚ) < (n : ℚ) := by linarith
    have hn1' : n < myFloor q + 2 := by exact_mod_cast hn1
    have hn2' : myFloor q < n := by exact_mod_cast hn2
    omega
  all_goals
    exfalso
    have he : q - (myFloor q : ℚ) = 1 / 2 := by linarith
    have hn1 : (n : ℚ) < (myFloor q : ℚ) + 1 := by linarith
    have hn2 : (myFloor q : ℚ) < (n : ℚ) := by linarith
    have hn1' : n < myFloor q + 1 := by exact_mod_cast hn1
    have hn2' : myFloor q < n := by exact_mod_cast hn2
    omega

/-- `round(x, 2)` at a value that is not a tie at the second decimal. -/
theorem pyRound2_eq (q : ℚ) (n : ℤ) (h1 : (n : ℚ) - 1 / 2 < q * 100)
    (h2 : q * 100 < (n : ℚ) + 1 / 2) : pyRound2 q = (n : ℚ) / 100 := by
  unfold pyRound2
  rw [roundHE_eq_of (q * 100) n h1 h2]

/-- Every `round(x, 2)` result is an integer multiple of `1/100`. -/
theorem pyRound2_centi (q : ℚ) : ∃ k : ℤ, pyRound2 q = (k : ℚ) / 100 :=
  ⟨roundHE (q * 100), rfl⟩

/-- `round(x, 2)` moves its argument by at most half of the last kept digit. -/
theorem pyRound2_near (q : ℚ) : |pyRound2 q - q| ≤ 1 / 200 := by
  have h := roundHE_near (q * 100)
  rw [abs_le] at h ⊢
  unfold pyRound2
  constructor <;> [linarith [h.1]; linarith [h.2]]

/-! ### Reduction lemmas for the Except monad and the fail-soft combinators -/

@[simp] theorem ok_bind (a : α) (f : α → Except Err β) :
    (Except.ok a >>= f : Except Err β) = f a := rfl

@[simp] theorem error_bind (e : Err) (f : α → Except Err β) :
    (Except.error e >>= f : Except Err β) = .error e := rfl

@[simp] theorem pyTry_ok_val (a : α) : pyTry (Except.ok a) = .ok (some a) := rfl

@[simp] theorem pyTry_error (e : Err) : pyTry (Except.error e : Except Err α) = .ok none := rfl

theorem pyTry_isOk (x : Except Err α) : ∃ o, pyTry x = .ok o := by
  cases x <;> exact ⟨_, rfl⟩

@[simp] theorem pyCatch_ok (a : α) (d : α) : pyCatch (Except.ok a) d = a := rfl

@[simp] theorem pyCatch_error (e : Err) (d : α) :
    pyCatch (Except.error e : Except Err α) d = d := rfl

@[simp] theorem optSections_ok_some (a : α) (r : α → List Str) :
    optSections (Except.ok (some a)) r = .ok (r a) := rfl

@[simp] theorem optSections_ok_none (r : α → List Str) :
    optSections (Except.ok (none : Option α)) r = .ok [] := rfl

theorem optSections_isOk (x : Except Err (Option α)) (r : α → List Str)
    (h : ∃ o, x = .ok o) : ∃ l, optSections x r = .ok l := by
  obtain ⟨o, rfl⟩ := h
  cases o <;> exact ⟨_, rfl⟩

/-! ### Totality of the guarded probes and of the section renderer -/



theorem get_system_info_isOk (w : World) : ∃ o, get_system_info w = .ok o := by
  unfold get_system_info; exact pyTry_isOk _

theorem get_network_info_isOk (w : World) : ∃ o, get_network_info w = .ok o := by
  unfold get_network_info; exact pyTry_isOk _

theorem get_locale_info_isOk (w : World) : ∃ o, get_locale_info w = .ok o := by
  unfold get_locale_info; exact pyTry_isOk _

theorem get_timezone_info_isOk (w : World) : ∃ o, get_timezone_info w = .ok o := by
  unfold get_timezone_info; exact pyTry_isOk _

theorem get_performance_metrics_isOk (w : World) : ∃ o, get_performance_metrics w = .ok o := by
  unfold get_performance_metrics; exact pyTry_isOk _

theorem get_hardware_info_isOk (w : World) : ∃ o, get_hardware_info w = .ok o := by
  unfold get_hardware_info; exact pyTry_isOk _

theorem get_users_info_isOk (w : World) : ∃ o, get_users_info w = .ok o := by
  unfold get_users_info; exact pyTry_isOk _

theorem get_network_traffic_isOk (w : World) : ∃ o, get_network_traffic w = .ok o := by
  unfold get_network_traffic; exact pyTry_isOk _

theorem get_open_ports_isOk (w : World) : ∃ o, get_open_ports w = .ok o := by
  unfold get_open_ports; exact pyTry_isOk _

theorem get_process_info_isOk (w : World) : ∃ o, get_process_info w = .ok o := by
  unfold get_process_info; exact pyTry_isOk _

theorem get_filesystem_info_isOk (w : World) : ∃ o, get_filesystem_info w = .ok o := by
  unfold get_filesystem_info; exact pyTry_isOk _

theorem get_services_info_isOk (w : World) : ∃ o, get_services_info w = .ok o := by
  unfold get_services_info; exact pyTry_isOk _

theorem kindSections_isOk (w : World) (k : Str)
    (ht : ∃ ti, get_current_time_info w = .ok ti) :
    ∃ l, kindSections w k = .ok l := by
  obtain ⟨ti, hti⟩ := ht
  unfold kindSections
  by_cases h1 : k = str "time"
  · rw [if_pos h1, hti]; exact ⟨_, rfl⟩
  rw [if_neg h1]
  by_cases h2 : k = str "system"
  · rw [if_pos h2]; exact optSections_isOk _ _ (get_system_info_isOk w)
  rw [if_neg h2]
  by_cases h3 : k = str "network"
  · rw [if_pos h3]; exact optSections_isOk _ _ (get_network_info_isOk w)
  rw [if_neg h3]
  by_cases h4 : k = str "locale"
  · rw [if_pos h4]; exact optSections_isOk _ _ (get_locale_info_isOk w)
  rw [if_neg h4]
  by_cases h5 : k = str "timezone"
  · rw [if_pos h5]; exact optSections_isOk _ _ (get_timezone_info_isOk w)
  rw [if_neg h5]
  by_cases h6 : k = str "performance"
  · rw [if_pos h6]; exact optSections_isOk _ _ (get_performance_metrics_isOk w)
  rw [if_neg h6]
  by_cases h7 : k = str "hardware"
  · rw [if_pos h7]; exact optSections_isOk _ _ (get_hardware_info_isOk w)
  rw [if_neg h7]
  by_cases h8 : k = str "users"
  · rw [if_pos h8]; exact optSections_isOk _ _ (get_users_info_isOk w)
  rw [if_neg h8]
  by_cases h9 : k = str "network_traffic"
  · rw [if_pos h9]; exact optSections_isOk _ _ (get_network_traffic_isOk w)
  rw [if_neg h9]
  by_cases h10 : k = str "ports"
  · rw [if_pos h10]; exact optSections_isOk _ _ (get_open_ports_isOk w)
  rw [if_neg h10]
  by_cases h11 : k = str "processes"
  · rw [if_pos h11]; exact optSections_isOk _ _ (get_process_info_isOk w)
  rw [if_neg h11]
  by_cases h12 : k = str "filesystem"
  · rw [if_pos h12]; exact optSections_isOk _ _ (get_filesystem_info_isOk w)
  rw [if_neg h12]
  by_cases h13 : k = str "services"
  · rw [if_pos h13]; exact optSections_isOk _ _ (get_services_info_isOk w)
  rw [if_neg h13]
  exact ⟨[], rfl⟩


theorem info_sections_isOk (w : World) (l : List Str)
    (ht : ∃ ti, get_current_time_info w = .ok ti) :
    ∃ s, info_sections w l = .ok s := by
  induction l with
  | nil => exact ⟨[], rfl⟩
  | cons k rest ih =>
      obtain ⟨b, hb⟩ := kindSections_isOk w k ht
      obtain ⟨r, hr⟩ := ih
      refine ⟨b ++ r, ?_⟩
      simp only [info_sections]
      rw [hb, ok_bind, hr, ok_bind]

theorem info_sections_append (w : World) (l1 l2 : List Str) (s1 s2 : List Str)
    (h1 : info_sections w l1 = .ok s1) (h2 : info_sections w l2 = .ok s2) :
    info_sections w (l1 ++ l2) = .ok (s1 ++ s2) := by
  induction l1 generalizing s1 with
  | nil =>
      simp only [info_sections] at h1
      cases h1
      simpa using h2
  | cons k rest ih =>
      rw [List.cons_append]
      simp only [info_sections] at h1 ⊢
      cases hk : kindSections w k with
      | error e => rw [hk] at h1; simp at h1
      | ok b =>
          rw [hk] at h1
          rw [hk, ok_bind] at *
          cases hr : info_sections w rest with
          | error e => rw [hr, error_bind] at h1; cases h1
          | ok r =>
              rw [hr, ok_bind] at h1
              rw [ih r hr, ok_bind]
              cases h1
              rw [List.append_assoc]

theorem kindSections_unknown (w : World) (k : Str) (hk : k ∉ all_enhancements) :
    kindSections w k = .ok [] := by
  unfold kindSections
  have hmem : ∀ s : Str, k = s → s ∈ all_enhancements → False := by
    intro s he hs; rw [he] at hk; exact hk hs
  rw [if_neg (fun h => hmem _ h (by decide)), if_neg (fun h => hmem _ h (by decide)),
      if_neg (fun h => hmem _ h (by decide)), if_neg (fun h => hmem _ h (by decide)),
      if_neg (fun h => hmem _ h (by decide)), if_neg (fun h => hmem _ h (by decide)),
      if_neg (fun h => hmem _ h (by decide)), if_neg (fun h => hmem _ h (by decide)),
      if_neg (fun h => hmem _ h (by decide)), if_neg (fun h => hmem _ h (by decide)),
      if_neg (fun h => hmem _ h (by decide)), if_neg (fun h => hmem _ h (by decide)),
      if_neg (fun h => hmem _ h (by decide))]

theorem info_sections_unknown (w : World) (l : List Str)
    (h : ∀ k ∈ l, k ∉ all_enhancements) :
    info_sections w l = .ok [] := by
  induction l with
  | nil => rfl
  | cons k rest ih =>
      simp only [info_sections]
      rw [kindSections_unknown w k (h k (List.mem_cons_self k rest)), ok_bind,
        ih (fun x hx => h x (List.mem_cons_of_mem k hx)), ok_bind, List.nil_append]

theorem contains_false_of_not_mem (l : List Str) (a : Str) (h : a ∉ l) :
    l.contains a = false := by
  cases hc : l.contains a
  · rfl
  · exact absurd (List.mem_of_elem_eq_true hc) h

/-! ### Claim C1, C2, C3, C8, C9 -/


/-- Claim C1, counterexample: the claim states that no probe ever propagates an
error and that no error reaches the caller of enhance_prompt.  The time probe
(`get_current_time_info`) has no exception handler, so a mocked failure of the
datetime facility propagates through `enhance_prompt` to its caller. -/
theorem C1_counterexample :
    enhance_prompt wTimeErr (str "base prompt") (.inr [str "time"])
      = .error (str "mocked clock failure") := by decide

/-- Claim C1, amended: every probe except the time probe is wrapped in a
handler that converts any internal failure into an absent result, so whenever
the unguarded time probe itself succeeds, `enhance_prompt` returns normally for
every base prompt and every selection; a failure inside the time facilities is
the one error that can reach the caller. -/
theorem C1_amended : ∀ (w : World) (base : Str) (e : Enh),
    (∃ ti, get_current_time_info w = .ok ti) →
    ∃ s, enhance_prompt w base e = .ok s := by
  intro w base e ht
  obtain ⟨s, hs⟩ := info_sections_isOk w (enhancements_to_apply e) ht
  unfold enhance_prompt
  rw [hs, ok_bind]
  by_cases hne : s ≠ []
  · rw [if_pos hne]; exact ⟨_, rfl⟩
  · rw [if_neg hne]; exact ⟨_, rfl⟩

/-- Claim C1 witness: on the benign world the hypothesis of the amended
theorem holds and `enhance_prompt` returns an ok result. -/
theorem C1_witness : ∃ s, enhance_prompt wDefault (str "p") (.inr [str "time"]) = .ok s :=
  C1_amended wDefault (str "p") (.inr [str "time"]) ⟨_, rfl⟩

/-- Claim C2: whenever `enhance_prompt` returns a string, that string is
exactly base_prompt ++ two newlines ++ the fixed header ++ newline ++ the
rendered sections joined by newlines ++ two newlines ++ the fixed trailer when
at least one section line was produced, and base_prompt unchanged otherwise;
in particular the empty selection and a selection of only unknown kind tokens
return the base prompt unchanged. -/
theorem C2_assembly : ∀ (w : World) (base : Str),
    (∀ (e : Enh) (s : Str), enhance_prompt w base e = .ok s →
      ∃ secs, info_sections w (enhancements_to_apply e) = .ok secs ∧
        (secs ≠ [] → s = base ++ str "\n\n" ++ fixed_header ++ str "\n"
            ++ joinSep (str "\n") secs ++ str "\n\n" ++ fixed_trailer) ∧
        (secs = [] → s = base)) ∧
    enhance_prompt w base (.inr []) = .ok base ∧
    (∀ l : List Str, (∀ k ∈ l, k ∉ all_enhancements ∧ k ≠ str "all") →
      enhance_prompt w base (.inr l) = .ok base) := by
  intro w base
  refine ⟨?_, rfl, ?_⟩
  · intro e s h
    unfold enhance_prompt at h
    cases hsec : info_sections w (enhancements_to_apply e) with
    | error e' => rw [hsec, error_bind] at h; cases h
    | ok secs =>
        rw [hsec, ok_bind] at h
        refine ⟨secs, rfl, ?_, ?_⟩
        · intro hne; rw [if_pos hne] at h; cases h; rfl
        · intro he; rw [if_neg (fun hcon => hcon he)] at h; cases h; rfl
  · intro l hl
    have hAll : applyAll (.inr l) = false :=
      contains_false_of_not_mem l _ (fun hm => (hl _ hm).2 rfl)
    have happ : enhancements_to_apply (.inr l) = l := by
      unfold enhancements_to_apply; rw [hAll]; rfl
    unfold enhance_prompt
    rw [happ, info_sections_unknown w l (fun k hk => (hl k hk).1), ok_bind,
      if_neg (fun hcon => hcon rfl)]

/-- Claim C2 witness: the empty selection and an unknown-token selection
return the base prompt unchanged on the benign world. -/
theorem C2_witness :
    enhance_prompt wDefault (str "p") (.inr []) = .ok (str "p") ∧
    enhance_prompt wDefault (str "p") (.inr [str "unknown_kind"]) = .ok (str "p") :=
  ⟨(C2_assembly wDefault (str "p")).2.1,
   (C2_assembly wDefault (str "p")).2.2 [str "unknown_kind"] (by decide)⟩

/-- Claim C3: the catalog has 13 kinds; the literal string all and any list
containing all as an element resolve to the full catalog in declared order,
ignoring other elements (so resolving the two-element list with all and time
equals resolving all); any list without all passes through unchanged. -/
theorem C3_resolve :
    all_enhancements.length = 13 ∧
    enhancements_to_apply (.inl (str "all")) = all_enhancements ∧
    (∀ l : List Str, str "all" ∈ l → enhancements_to_apply (.inr l) = all_enhancements) ∧
    enhancements_to_apply (.inr [str "all", str "time"])
      = enhancements_to_apply (.inl (str "all")) ∧
    (∀ l : List Str, str "all" ∉ l → enhancements_to_apply (.inr l) = l) := by
  refine ⟨rfl, rfl, ?_, rfl, ?_⟩
  · intro l hm
    have : applyAll (.inr l) = true := List.elem_eq_true_of_mem hm
    unfold enhancements_to_apply; rw [this]; rfl
  · intro l hm
    have hAll : applyAll (.inr l) = false := contains_false_of_not_mem l _ hm
    unfold enhancements_to_apply; rw [hAll]; rfl

/-- Claim C3 witness: resolving the list containing all and time yields the
full catalog, and resolving the singleton time list yields itself. -/
theorem C3_witness :
    enhancements_to_apply (.inr [str "all", str "time"]) = all_enhancements ∧
    enhancements_to_apply (.inr [str "time"]) = [str "time"] :=
  ⟨C3_resolve.2.2.1 _ (by decide), C3_resolve.2.2.2.2 _ (by decide)⟩

/-- Claim C9 (implicit): for a string-valued enhancements argument that is
not the literal all but contains all as a substring, the membership test is
substring matching, so the full catalog of 13 kinds is applied and
`enhance_prompt` behaves as if called with all. -/
theorem C9_substring : ∀ s : Str, s ≠ str "all" → isSub (str "all") s = true →
    enhancements_to_apply (.inl s) = all_enhancements ∧
    (∀ (w : World) (base : Str),
      enhance_prompt w base (.inl s) = enhance_prompt w base (.inl (str "all"))) := by
  intro s _ hsub
  have h1 : applyAll (.inl s) = true := by
    show (s == str "all" || isSub (str "all") s) = true
    rw [hsub]
    exact Bool.or_true _
  have h2 : enhancements_to_apply (.inl s) = all_enhancements := by
    unfold enhancements_to_apply; rw [h1]; rfl
  refine ⟨h2, ?_⟩
  intro w base
  unfold enhance_prompt
  rw [h2]
  rfl

/-- Claim C9 witness: the string install resolves to the full catalog. -/
theorem C9_witness : enhancements_to_apply (.inl (str "install")) = all_enhancements :=
  (C9_substring (str "install") (by decide) (by decide)).1

/-- Claim C8: for an explicit selection list not containing all, the tokens
are processed in caller order without deduplication: a kind occurring twice
contributes its rendered block twice, at the corresponding positions of the
section list. -/
theorem C8_duplicates : ∀ (w : World) (l1 l2 l3 : List Str) (k : Str) (b s1 s2 s3 : List Str),
    str "all" ∉ l1 ++ k :: (l2 ++ k :: l3) →
    kindSections w k = .ok b →
    info_sections w l1 = .ok s1 → info_sections w l2 = .ok s2 →
    info_sections w l3 = .ok s3 →
    enhancements_to_apply (.inr (l1 ++ k :: (l2 ++ k :: l3))) = l1 ++ k :: (l2 ++ k :: l3) ∧
    info_sections w (l1 ++ k :: (l2 ++ k :: l3)) = .ok (s1 ++ (b ++ (s2 ++ (b ++ s3)))) := by
  intro w l1 l2 l3 k b s1 s2 s3 hall hk h1 h2 h3
  have hAll : applyAll (.inr (l1 ++ k :: (l2 ++ k :: l3))) = false :=
    contains_false_of_not_mem _ _ hall
  have happ : enhancements_to_apply (.inr (l1 ++ k :: (l2 ++ k :: l3)))
      = l1 ++ k :: (l2 ++ k :: l3) := by
    unfold enhancements_to_apply; rw [hAll]; rfl
  have hsingle : info_sections w [k] = .ok b := by
    simp only [info_sections]
    rw [hk, ok_bind, ok_bind, List.append_nil]
  have hkl3 : info_sections w ([k] ++ l3) = .ok (b ++ s3) :=
    info_sections_append _ _ _ _ _ hsingle h3
  have hl2 : info_sections w (l2 ++ ([k] ++ l3)) = .ok (s2 ++ (b ++ s3)) :=
    info_sections_append _ _ _ _ _ h2 hkl3
  have hkl2 : info_sections w ([k] ++ (l2 ++ ([k] ++ l3))) = .ok (b ++ (s2 ++ (b ++ s3))) :=
    info_sections_append _ _ _ _ _ hsingle hl2
  have hfin : info_sections w (l1 ++ ([k] ++ (l2 ++ ([k] ++ l3))))
      = .ok (s1 ++ (b ++ (s2 ++ (b ++ s3)))) :=
    info_sections_append _ _ _ _ _ h1 hkl2
  exact ⟨happ, by simpa [List.singleton_append] using hfin⟩

/-- Claim C8 witness: the selection consisting of time twice produces the
time block twice on the benign world. -/
theorem C8_witness :
    info_sections wDefault [str "time", str "time"] =
      .ok ([] ++ ([str "Current time: NOW, NOW NOW (UTC)", str "UTC time: UTCNOW"]
        ++ ([] ++ ([str "Current time: NOW, NOW NOW (UTC)", str "UTC time: UTCNOW"] ++ [])))) :=
  (C8_duplicates wDefault [] [] [] (str "time")
    [str "Current time: NOW, NOW NOW (UTC)", str "UTC time: UTCNOW"] [] [] []
    (by decide) (by decide) rfl rfl rfl).2

/-! ### Claim C4 -/


/-- Claim C4: with counter snapshots sent 1,000,000 / recv 2,000,000 bytes
and then sent 1,512,000 / recv 3,048,000 bytes, the network-traffic probe
reports download_speed = round((3048000 - 2000000)/1024, 2) = 1023.44 KB/s and
upload_speed = round((1512000 - 1000000)/1024, 2) = 500.0 KB/s. -/
theorem C4_traffic_speeds :
    ∃ tr, get_network_traffic wTraffic = .ok (some tr) ∧
      tr.download_speed = 1023.44 ∧ tr.upload_speed = 500 := by
  refine ⟨_, rfl, ?_, ?_⟩
  · show pyRound2 ((((3048000 : ℕ) : ℚ) - ((2000000 : ℕ) : ℚ)) / 1024) = 1023.44
    rw [pyRound2_eq _ 102344] <;> norm_num
  · show pyRound2 ((((1512000 : ℕ) : ℚ) - ((1000000 : ℕ) : ℚ)) / 1024) = 500
    rw [pyRound2_eq _ 50000] <;> norm_num

/-! ### Services scan lemmas -/


theorem systemdScan_filter (lines : List Str) :
    (systemdScan lines).2 = (systemdScan lines).1.filter isCriticalName := by
  induction lines with
  | nil => rfl
  | cons line rest ih =>
      simp only [systemdScan]
      by_cases h1 : isSub (str ".service") line = true ∧ isSub (str "running") line = true
      · rw [if_pos h1]
        set nm := pyStrip ((splitSub (str ".service") line).headD []) with hnm
        cases hc : isCriticalName nm <;> simp [List.filter_cons, hc, ih]
      · rw [if_neg h1]; exact ih

theorem windowsScan_filter (lines : List Str) :
    (windowsScan lines).2 = (windowsScan lines).1.filter isWinCritical := by
  induction lines with
  | nil => rfl
  | cons line rest ih =>
      simp only [windowsScan]
      by_cases h1 : pyStrip line ≠ [] ∧ ¬ isPre (str "The following") (pyStrip line)
          ∧ ¬ isPre (str "The command") (pyStrip line)
      · rw [if_pos h1]
        cases hc : isWinCritical (pyStrip line) <;> simp [List.filter_cons, hc, ih]
      · rw [if_neg h1]; exact ih

theorem mem_pySet (l : List Str) (a : Str) : a ∈ pySet l ↔ a ∈ l := List.mem_dedup

theorem nodup_pySet (l : List Str) : (pySet l).Nodup := List.nodup_dedup l

/-- Services probe on a Linux host whose systemctl call fails: fallback path. -/
theorem services_fallback (w : World) (e : Err) (procs : List Str)
    (hplat : w.platform_system = .ok (str "Linux"))
    (hsys : w.systemctl_out = .error e)
    (hproc : w.svc_proc_names = .ok procs) :
    get_services_info w = .ok (some
      { running_count := 0, services := [],
        critical := pySet (procs.filter isCriticalName) }) := by
  have hscan : servicesScan w (str "Linux") = ([], []) := by
    unfold servicesScan
    rw [if_pos rfl, hsys]
    rfl
  unfold get_services_info
  rw [hplat]
  simp only [ok_bind, hscan]
  rw [if_true, hproc]
  simp only [ok_bind, List.nil_append]
  rfl


/-! ### Claims C6 and C10 -/


theorem services_running_eq_length (w : World) (r : ServicesInfo)
    (h : get_services_info w = .ok (some r)) : r.running_count = r.services.length := by
  unfold get_services_info at h
  cases hps : w.platform_system with
  | error e => rw [hps, error_bind, pyTry_error] at h; cases h
  | ok ps =>
      rw [hps] at h
      simp only [ok_bind] at h
      by_cases hsc : (servicesScan w ps).1 = []
      · rw [if_pos hsc] at h
        cases hq : w.svc_proc_names with
        | error e => rw [hq, error_bind, pyTry_error] at h; cases h
        | ok procs =>
            rw [hq] at h
            simp only [ok_bind, pyTry_ok_val, Except.ok.injEq, Option.some.injEq] at h
            rw [← h]
      · rw [if_neg hsc] at h
        simp only [ok_bind, pyTry_ok_val, Except.ok.injEq, Option.some.injEq] at h
        rw [← h]

/-- Claim C6: any discovered running service or process whose name contains a
known critical substring is classified as critical (systemd branch and process
fallback alike, so a process named nginx-worker is critical, as is
nginx-main), and the critical set is deduplicated: membership in the result is
exactly membership among matching names, without duplicates. -/
theorem C6_critical_classification :
    (∀ lines, (systemdScan lines).2 = (systemdScan lines).1.filter isCriticalName) ∧
    isCriticalName (str "nginx-worker") = true ∧
    isCriticalName (str "nginx-main") = true ∧
    (∀ (w : World) (e : Err) (procs : List Str) (r : ServicesInfo),
      w.platform_system = .ok (str "Linux") → w.systemctl_out = .error e →
      w.svc_proc_names = .ok procs → get_services_info w = .ok (some r) →
      r.critical.Nodup ∧
      ∀ n : Str, n ∈ r.critical ↔ n ∈ procs ∧ isCriticalName n = true) := by
  refine ⟨systemdScan_filter, by decide, by decide, ?_⟩
  intro w e procs r hplat hsys hproc h
  rw [services_fallback w e procs hplat hsys hproc] at h
  simp only [Except.ok.injEq, Option.some.injEq] at h
  subst h
  refine ⟨nodup_pySet _, ?_⟩
  intro n
  rw [mem_pySet]
  exact List.mem_filter

/-- Claim C6 witness: with processes nginx-worker, nginx-main, nginx-worker
the critical set has no duplicates and contains exactly the two distinct
names. -/
theorem C6_witness :
    (⟨0, [], [str "nginx-main", str "nginx-worker"]⟩ : ServicesInfo).critical.Nodup ∧
    ∀ n : Str, n ∈ (⟨0, [], [str "nginx-main", str "nginx-worker"]⟩ : ServicesInfo).critical ↔
      n ∈ [str "nginx-worker", str "nginx-main", str "nginx-worker"] ∧ isCriticalName n = true :=
  C6_critical_classification.2.2.2 wSvcDup (str "no systemd")
    [str "nginx-worker", str "nginx-main", str "nginx-worker"]
    ⟨0, [], [str "nginx-main", str "nginx-worker"]⟩ rfl rfl rfl (by decide)

/-- Claim C10 (implicit): the reported running_count is always the length of
the services list; when the OS commands discover no services, the process-scan
fallback fills only the critical list, so the probe reports running_count 0
with a possibly non-empty critical list, and the rendered block then shows the
line Running services: 0. -/
theorem C10_fallback_zero_running :
    (∀ (w : World) (r : ServicesInfo), get_services_info w = .ok (some r) →
      r.running_count = r.services.length) ∧
    (∀ (w : World) (e : Err) (procs : List Str),
      w.platform_system = .ok (str "Linux") → w.systemctl_out = .error e →
      w.svc_proc_names = .ok procs →
      get_services_info w = .ok (some
        { running_count := 0, services := [],
          critical := pySet (procs.filter isCriticalName) }) ∧
      kindSections w (str "services") = .ok (renderServices
        { running_count := 0, services := [],
          critical := pySet (procs.filter isCriticalName) })) ∧
    (∀ si : ServicesInfo, si.running_count = 0 →
      (renderServices si).get? 1 = some (str "  Running services: 0")) := by
  refine ⟨services_running_eq_length, ?_, ?_⟩
  · intro w e procs hplat hsys hproc
    have hmain := services_fallback w e procs hplat hsys hproc
    refine ⟨hmain, ?_⟩
    have hks : kindSections w (str "services")
        = optSections (get_services_info w) renderServices := rfl
    rw [hks, hmain, optSections_ok_some]
  · intro si h
    simp only [renderServices, h, List.cons_append, List.get?_cons_succ, List.get?_cons_zero]
    decide

/-- Claim C10 witness: on a Linux world without systemctl whose process list
holds one nginx worker, the probe returns running_count 0 with a non-empty
critical list and renders Running services: 0. -/
theorem C10_witness :
    get_services_info wSvcFallback = .ok (some
      { running_count := 0, services := [],
        critical := pySet ([str "nginx-worker"].filter isCriticalName) }) ∧
    kindSections wSvcFallback (str "services") = .ok (renderServices
      { running_count := 0, services := [],
        critical := pySet ([str "nginx-worker"].filter isCriticalName) }) ∧
    (renderServices
      { running_count := 0, services := [],
        critical := pySet ([str "nginx-worker"].filter isCriticalName) }).get? 1
      = some (str "  Running services: 0") :=
  ⟨(C10_fallback_zero_running.2.1 wSvcFallback (str "no systemd") [str "nginx-worker"]
      rfl rfl rfl).1,
   (C10_fallback_zero_running.2.1 wSvcFallback (str "no systemd") [str "nginx-worker"]
      rfl rfl rfl).2,
   C10_fallback_zero_running.2.2
     { running_count := 0, services := [],
       critical := pySet ([str "nginx-worker"].filter isCriticalName) } rfl⟩

/-! ### Claim C5 -/

theorem get_open_ports_shape (w : World) (r : PortsInfo)
    (h : get_open_ports w = .ok (some r)) :
    ∃ conns lp, w.net_connections = .ok conns ∧
      r.top_processes =
        ((sortStable (fun a b => Nat.ble b.2 a.2) (portsScan w conns).2.2).take 5).map
          (fun pc => pc.1 ++ str " (" ++ natStr pc.2 ++ str ")") ∧
      r.listening_ports = sortStable (fun a b => Nat.ble a b) lp ∧
      r.total_connections = conns.length ∧
      r.established = (portsScan w conns).2.1 := by
  unfold get_open_ports at h
  cases hc : w.net_connections with
  | error e => rw [hc, error_bind, pyTry_error] at h; cases h
  | ok conns =>
      rw [hc] at h
      simp only [ok_bind] at h
      rcases hps : portsScan w conns with ⟨lp0, est, pc⟩
      rw [hps] at h
      simp only [] at h
      by_cases hl : lp0 = []
      · rw [if_pos hl] at h
        cases hp : w.platform_system with
        | error e => rw [hp] at h; simp only [error_bind, pyTry_error] at h; cases h
        | ok ps =>
            rw [hp] at h
            simp only [ok_bind] at h
            by_cases hlin : ps = str "Linux"
            · rw [if_pos hlin] at h
              simp only [ok_bind, pyTry_ok_val, Except.ok.injEq, Option.some.injEq] at h
              subst h
              refine ⟨conns,
                pyCatch (Except.map (fun out => netstatScan (pyLines out) lp0) w.netstat_out) lp0,
                rfl, ?_, ?_, ?_, ?_⟩ <;> simp [hps]
            · rw [if_neg hlin] at h
              simp only [ok_bind, pyTry_ok_val, Except.ok.injEq, Option.some.injEq] at h
              subst h
              refine ⟨conns, lp0, rfl, ?_, ?_, ?_, ?_⟩ <;> simp [hps]
      · rw [if_neg hl] at h
        simp only [ok_bind, pyTry_ok_val, Except.ok.injEq, Option.some.injEq] at h
        subst h
        refine ⟨conns, lp0, rfl, ?_, ?_, ?_, ?_⟩ <;> simp [hps]

/-- Claim C5, counterexample: the claim states that top-process truncation is
a render-time concern with full per-process connection data retained in the
probe result.  On a world with six connection-owning processes, the probe
stores only five formatted top_processes entries and the entry for the sixth
process is absent from the result, while the scan itself saw six. -/
theorem C5_counterexample :
    get_open_ports wPorts = .ok (some rPorts) ∧
    rPorts.top_processes.length = 5 ∧
    (∃ conns, wPorts.net_connections = .ok conns ∧
      (portsScan wPorts conns).2.2.length = 6 ∧ (str "p6", 1) ∈ (portsScan wPorts conns).2.2) ∧
    str "p6 (1)" ∉ rPorts.top_processes := by
  refine ⟨by decide, by decide, ⟨_, rfl, by decide, by decide⟩, by decide⟩

/-- Claim C5, amended: the ports list is truncated at render time with the
full ascending-sorted list retained in the probe result (the rendered block
shows the first 10 and an and-K-more line exactly when more than 10 are
stored), but the top-processes truncation happens inside the probe: the result
keeps at most 5 formatted entries and no further per-process data. -/
theorem C5_amended : ∀ (w : World) (r : PortsInfo), get_open_ports w = .ok (some r) →
    r.top_processes.length ≤ 5 ∧
    kindSections w (str "ports") = .ok (renderPorts r) ∧
    (10 < r.listening_ports.length →
      renderPorts r =
        [str "Open ports and connections:",
         str "  Total connections: " ++ natStr r.total_connections,
         str "  Listening ports: " ++ joinSep (str ", ") ((r.listening_ports.take 10).map natStr),
         str "    and " ++ natStr (r.listening_ports.length - 10) ++ str " more...",
         str "  Established connections: " ++ natStr r.established,
         str "  Top processes using network: " ++ joinSep (str ", ") r.top_processes]) := by
  intro w r h
  obtain ⟨conns, lp, hc, htop, hlp, htot, hest⟩ := get_open_ports_shape w r h
  refine ⟨?_, ?_, ?_⟩
  · rw [htop, List.length_map, List.length_take]
    exact min_le_left _ _
  · have hks : kindSections w (str "ports") = optSections (get_open_ports w) renderPorts := rfl
    rw [hks, h, optSections_ok_some]
  · intro hgt
    unfold renderPorts
    rw [if_pos hgt]
    rfl

/-- Claim C5 witness: on the twelve-port world the rendered block shows the
first ten sorted ports plus the and 2 more line, and top_processes holds at
most five entries. -/
theorem C5_witness :
    rPorts.top_processes.length ≤ 5 ∧
    kindSections wPorts (str "ports") = .ok (renderPorts rPorts) ∧
    (10 < rPorts.listening_ports.length →
      renderPorts rPorts =
        [str "Open ports and connections:",
         str "  Total connections: " ++ natStr rPorts.total_connections,
         str "  Listening ports: " ++ joinSep (str ", ") ((rPorts.listening_ports.take 10).map natStr),
         str "    and " ++ natStr (rPorts.listening_ports.length - 10) ++ str " more...",
         str "  Established connections: " ++ natStr rPorts.established,
         str "  Top processes using network: " ++ joinSep (str ", ") rPorts.top_processes]) :=
  C5_amended wPorts rPorts (by decide)

/-! ### Claim C7 -/

theorem get_system_info_fields (w : World) (si : SystemInfo)
    (h : get_system_info w = .ok (some si)) :
    ∃ cpu vm du, w.psutil_cpu_percent = .ok cpu ∧ w.psutil_vm = .ok vm ∧
      w.psutil_disk_root = .ok du ∧
      si.cpu = cpu ∧ si.memory = vm.percent ∧
      si.memory_gb = pyRound2 ((vm.total : ℚ) / 1024 ^ 3) ∧
      si.disk_total = pyRound2 ((du.total : ℚ) / 1024 ^ 3) ∧
      si.disk_percent = du.percent := by
  unfold get_system_info at h
  cases h1 : w.platform_system <;> rw [h1] at h <;>
    simp only [error_bind, ok_bind, pyTry_error] at h
  case error => cases h
  cases h2 : w.platform_release <;> rw [h2] at h <;>
    simp only [error_bind, ok_bind, pyTry_error] at h
  case error => cases h
  cases h3 : w.psutil_cpu_percent <;> rw [h3] at h <;>
    simp only [error_bind, ok_bind, pyTry_error] at h
  case error => cases h
  cases h4 : w.psutil_cpu_count_logical <;> rw [h4] at h <;>
    simp only [error_bind, ok_bind, pyTry_error] at h
  case error => cases h
  cases h5 : w.psutil_cpu_count_physical <;> rw [h5] at h <;>
    simp only [error_bind, ok_bind, pyTry_error] at h
  case error => cases h
  cases h6 : w.psutil_vm <;> rw [h6] at h <;>
    simp only [error_bind, ok_bind, pyTry_error] at h
  case error => cases h
  cases h7 : w.psutil_disk_root <;> rw [h7] at h <;>
    simp only [error_bind, ok_bind, pyTry_error] at h
  case error => cases h
  cases h8 : w.psutil_boot_time <;> rw [h8] at h <;>
    simp only [error_bind, ok_bind, pyTry_error] at h
  case error => cases h
  cases h9 : w.sys_now_epoch <;> rw [h9] at h <;>
    simp only [error_bind, ok_bind, pyTry_ok_val] at h
  case error => cases h
  simp only [Except.ok.injEq, Option.some.injEq] at h
  subst h
  exact ⟨_, _, _, rfl, rfl, rfl, rfl, rfl, rfl, rfl, rfl⟩

theorem get_performance_metrics_fields (w : World) (pf : PerfInfo)
    (h : get_performance_metrics w = .ok (some pf)) :
    ∃ nio swp, w.perf_net_io = .ok nio ∧ w.psutil_swap_percent = .ok swp ∧
      pf.network_sent = pyRound2 ((nio.bytes_sent : ℚ) / 1024 ^ 2) ∧
      pf.network_recv = pyRound2 ((nio.bytes_recv : ℚ) / 1024 ^ 2) ∧
      pf.swap_percent = swp := by
  unfold get_performance_metrics at h
  cases h1 : perfLoads w <;> rw [h1] at h <;>
    simp only [error_bind, ok_bind, pyTry_error] at h
  case error => cases h
  cases h2 : w.psutil_pids <;> rw [h2] at h <;>
    simp only [error_bind, ok_bind, pyTry_error] at h
  case error => cases h
  cases h3 : w.perf_net_io <;> rw [h3] at h <;>
    simp only [error_bind, ok_bind, pyTry_error] at h
  case error => cases h
  cases h4 : w.psutil_swap_percent <;> rw [h4] at h <;>
    simp only [error_bind, ok_bind, pyTry_error] at h
  case error => cases h
  cases h5 : w.psutil_boot_time <;> rw [h5] at h <;>
    simp only [error_bind, ok_bind, pyTry_ok_val] at h
  case error => cases h
  simp only [Except.ok.injEq, Option.some.injEq] at h
  subst h
  exact ⟨_, _, rfl, rfl, rfl, rfl, rfl⟩

theorem get_network_traffic_fields (w : World) (tr : TrafficInfo)
    (h : get_network_traffic w = .ok (some tr)) :
    ∃ io2, w.net_io2 = .ok io2 ∧
      tr.total_sent = pyRound2 ((io2.bytes_sent : ℚ) / (1024 * 1024)) ∧
      tr.total_received = pyRound2 ((io2.bytes_recv : ℚ) / (1024 * 1024)) ∧
      (∀ p ∈ tr.interfaces, ∃ st : NetIO,
        p.2.sent_mb = pyRound2 ((st.bytes_sent : ℚ) / (1024 * 1024)) ∧
        p.2.received_mb = pyRound2 ((st.bytes_recv : ℚ) / (1024 * 1024))) := by
  unfold get_network_traffic at h
  cases h1 : w.net_io1 <;> rw [h1] at h <;>
    simp only [error_bind, ok_bind, pyTry_error] at h
  case error => cases h
  cases h2 : w.net_io2 <;> rw [h2] at h <;>
    simp only [error_bind, ok_bind, pyTry_ok_val] at h
  case error => cases h
  simp only [Except.ok.injEq, Option.some.injEq] at h
  subst h
  refine ⟨_, rfl, rfl, rfl, ?_⟩
  intro p hp
  simp only [] at hp
  cases h3 : w.net_io_pernic with
  | error e =>
      rw [h3] at hp
      simp only [Except.map] at hp
      simp at hp
  | ok l =>
      rw [h3] at hp
      simp only [Except.map] at hp
      obtain ⟨x, hx, rfl⟩ := List.mem_map.mp hp
      exact ⟨x.2, rfl, rfl⟩

theorem get_filesystem_info_disks (w : World) (fs : FilesystemInfo)
    (h : get_filesystem_info w = .ok (some fs)) :
    ∀ d ∈ fs.disks, ∃ u : DiskU,
      d.total_gb = pyRound2 ((u.total : ℚ) / 1024 ^ 3) ∧
      d.used_gb = pyRound2 ((u.used : ℚ) / 1024 ^ 3) ∧
      d.percent = u.percent := by
  unfold get_filesystem_info at h
  cases h1 : w.disk_partitions with
  | error e => rw [h1, error_bind, pyTry_error] at h; cases h
  | ok parts =>
      rw [h1] at h
      simp only [ok_bind] at h
      cases h2 : w.disk_io_counters with
      | error e => rw [h2] at h; simp only [error_bind, pyTry_error] at h; cases h
      | ok io =>
          rw [h2] at h
          simp only [ok_bind, pyTry_ok_val, Except.ok.injEq, Option.some.injEq] at h
          subst h
          intro d hd
          simp only [] at hd
          clear h1
          induction parts with
          | nil => simp at hd
          | cons part rest ih =>
              rw [List.foldr_cons] at hd
              cases hu : w.disk_usage_of part.mountpoint with
              | ok u =>
                  rw [hu] at hd
                  simp only [] at hd
                  rcases List.mem_cons.mp hd with rfl | hd2
                  · exact ⟨u, rfl, rfl, rfl⟩
                  · exact ih hd2
              | error e =>
                  rw [hu] at hd
                  simp only [] at hd
                  exact ih hd

/-- Claim C7: every probe field derived from a byte count converted to MB or
GB (memory total, disk totals, performance network sent/received, traffic
totals, per-interface and per-disk sizes) is rounded to exactly two decimal
places, that is, it is an integer multiple of 1/100 within 1/200 of the exact
converted value, while every percentage field (cpu, memory, disk, swap) is
passed through unrounded from its source. -/
theorem C7_rounding : ∀ w : World,
    (∀ si : SystemInfo, get_system_info w = .ok (some si) →
      ∃ cpu vm du, w.psutil_cpu_percent = .ok cpu ∧ w.psutil_vm = .ok vm ∧
        w.psutil_disk_root = .ok du ∧
        (∃ k : ℤ, si.memory_gb = (k : ℚ) / 100) ∧
        |si.memory_gb - (vm.total : ℚ) / 1024 ^ 3| ≤ 1 / 200 ∧
        (∃ k : ℤ, si.disk_total = (k : ℚ) / 100) ∧
        |si.disk_total - (du.total : ℚ) / 1024 ^ 3| ≤ 1 / 200 ∧
        si.cpu = cpu ∧ si.memory = vm.percent ∧ si.disk_percent = du.percent) ∧
    (∀ pf : PerfInfo, get_performance_metrics w = .ok (some pf) →
      ∃ nio swp, w.perf_net_io = .ok nio ∧ w.psutil_swap_percent = .ok swp ∧
        (∃ k : ℤ, pf.network_sent = (k : ℚ) / 100) ∧
        |pf.network_sent - (nio.bytes_sent : ℚ) / 1024 ^ 2| ≤ 1 / 200 ∧
        (∃ k : ℤ, pf.network_recv = (k : ℚ) / 100) ∧
        |pf.network_recv - (nio.bytes_recv : ℚ) / 1024 ^ 2| ≤ 1 / 200 ∧
        pf.swap_percent = swp) ∧
    (∀ tr : TrafficInfo, get_network_traffic w = .ok (some tr) →
      ∃ io2, w.net_io2 = .ok io2 ∧
        (∃ k : ℤ, tr.total_sent = (k : ℚ) / 100) ∧
        |tr.total_sent - (io2.bytes_sent : ℚ) / (1024 * 1024)| ≤ 1 / 200 ∧
        (∃ k : ℤ, tr.total_received = (k : ℚ) / 100) ∧
        |tr.total_received - (io2.bytes_recv : ℚ) / (1024 * 1024)| ≤ 1 / 200 ∧
        (∀ p ∈ tr.interfaces, ∃ st : NetIO,
          (∃ k : ℤ, p.2.sent_mb = (k : ℚ) / 100) ∧
          |p.2.sent_mb - (st.bytes_sent : ℚ) / (1024 * 1024)| ≤ 1 / 200 ∧
          (∃ k : ℤ, p.2.received_mb = (k : ℚ) / 100) ∧
          |p.2.received_mb - (st.bytes_recv : ℚ) / (1024 * 1024)| ≤ 1 / 200)) ∧
    (∀ fs : FilesystemInfo, get_filesystem_info w = .ok (some fs) →
      ∀ d ∈ fs.disks, ∃ u : DiskU,
        (∃ k : ℤ, d.total_gb = (k : ℚ) / 100) ∧
        |d.total_gb - (u.total : ℚ) / 1024 ^ 3| ≤ 1 / 200 ∧
        (∃ k : ℤ, d.used_gb = (k : ℚ) / 100) ∧
        |d.used_gb - (u.used : ℚ) / 1024 ^ 3| ≤ 1 / 200 ∧
        d.percent = u.percent) := by
  intro w
  refine ⟨?_, ?_, ?_, ?_⟩
  · intro si h
    obtain ⟨cpu, vm, du, hc, hv, hd, e1, e2, e3, e4, e5⟩ := get_system_info_fields w si h
    refine ⟨cpu, vm, du, hc, hv, hd, ?_, ?_, ?_, ?_, e1, e2, e5⟩
    · rw [e3]; exact pyRound2_centi _
    · rw [e3]; exact pyRound2_near _
    · rw [e4]; exact pyRound2_centi _
    · rw [e4]; exact pyRound2_near _
  · intro pf h
    obtain ⟨nio, swp, hn, hs, e1, e2, e3⟩ := get_performance_metrics_fields w pf h
    refine ⟨nio, swp, hn, hs, ?_, ?_, ?_, ?_, e3⟩
    · rw [e1]; exact pyRound2_centi _
    · rw [e1]; exact pyRound2_near _
    · rw [e2]; exact pyRound2_centi _
    · rw [e2]; exact pyRound2_near _
  · intro tr h
    obtain ⟨io2, hio, e1, e2, hifs⟩ := get_network_traffic_fields w tr h
    refine ⟨io2, hio, ?_, ?_, ?_, ?_, ?_⟩
    · rw [e1]; exact pyRound2_centi _
    · rw [e1]; exact pyRound2_near _
    · rw [e2]; exact pyRound2_centi _
    · rw [e2]; exact pyRound2_near _
    · intro p hp
      obtain ⟨st, f1, f2⟩ := hifs p hp
      refine ⟨st, ?_, ?_, ?_, ?_⟩
      · rw [f1]; exact pyRound2_centi _
      · rw [f1]; exact pyRound2_near _
      · rw [f2]; exact pyRound2_centi _
      · rw [f2]; exact pyRound2_near _
  · intro fs h d hd
    obtain ⟨u, f1, f2, f3⟩ := get_filesystem_info_disks w fs h d hd
    refine ⟨u, ?_, ?_, ?_, ?_, f3⟩
    · rw [f1]; exact pyRound2_centi _
    · rw [f1]; exact pyRound2_near _
    · rw [f2]; exact pyRound2_centi _
    · rw [f2]; exact pyRound2_near _

/-- Claim C7 witness: the system probe on the benign world satisfies the
rounding and pass-through properties. -/
theorem C7_witness :
    ∃ si : SystemInfo, get_system_info wDefault = .ok (some si) ∧
      ∃ cpu vm du, wDefault.psutil_cpu_percent = .ok cpu ∧ wDefault.psutil_vm = .ok vm ∧
        wDefault.psutil_disk_root = .ok du ∧
        (∃ k : ℤ, si.memory_gb = (k : ℚ) / 100) ∧
        |si.memory_gb - (vm.total : ℚ) / 1024 ^ 3| ≤ 1 / 200 ∧
        (∃ k : ℤ, si.disk_total = (k : ℚ) / 100) ∧
        |si.disk_total - (du.total : ℚ) / 1024 ^ 3| ≤ 1 / 200 ∧
        si.cpu = cpu ∧ si.memory = vm.percent ∧ si.disk_percent = du.percent :=
  ⟨_, rfl, (C7_rounding wDefault).1 _ rfl⟩

end Marechan
